import Mathlib

/-!
Verification of the per-tick simulation engine of the cyber-brawl arena
battler.  The definitions below are a shallow embedding of the `update`
function of `src/components/GameCanvas` (source `src/unnamed/part_000`,
lines 283-652) together with the constants and the character table of
`src/unnamed/part_001`.

Modelling conventions, each noted again at its use site:

* JavaScript numbers are modelled as `ℚ` (the simulation performs only
  field operations and comparisons on them, apart from `Math.sqrt`,
  and every constant in the source is a decimal literal).
* Counters that the source only ever sets to a nonnegative integer and
  decrements under a `> 0` guard (`respawnTimer`, `dashFrames`,
  `gemSpawnerTimer`, `goalResetTimer`, ball `cooldown`, `gemCount`,
  `killCount`, scores) are modelled as `ℕ`.  `countDownTimer` is
  decremented without a guard and compared with `<= 0`, so it is an
  `Option ℤ` (`null` = `none`).
* Angles are resolved to unit direction vectors: wherever the source
  stores an angle `θ` and later computes `Math.cos(θ)`/`Math.sin(θ)`,
  the model stores or receives the pair `(cos θ, sin θ)`.
* All sources of nondeterminism of a tick (human input, the AI decision
  block, every `Math.random()` sample, the random characters of
  `resetPositions`) are resolved ahead of the tick and passed in a
  `TickEnv`; `Math.sqrt` (used by the source in a non-comparison
  position only for the projectile range decrement) is passed as the
  oracle `TickEnv.sq`, and theorems that depend on its value hypothesise
  exactly the square-root property at the points where it is applied.
* `Math.sqrt(d) < r` comparisons (the `dist` utility is only ever used
  under such comparisons) are translated to the exact equivalent
  `0 < r ∧ d < r^2`.
* Purely presentational state is omitted: visual effects, sounds,
  screen shake, HUD state, `hitFlashTimer`, `lastAttackTime`,
  `lastSuperTime`, and the cosmetic `id` strings generated from
  `Date.now()` (never consulted by the simulation; modelled as `""`).
* The `onGameOver` callback is modelled by a `result` field of the
  world that the mode phase assigns when the source would invoke the
  callback.
-/

/-- Game mode (`types` / `GameMode`). -/
inductive GameMode
  | GEM_GRAB
  | CYBER_BALL
deriving DecidableEq

/-- The two teams (`types` / `Team`). -/
inductive Team
  | BLUE
  | RED
deriving DecidableEq

/-- Ability variant of a character (`superType` in the character table). -/
inductive SuperType
  | DASH
  | SLAM
  | TELEPORT
  | GRENADE
  | RAPID_FIRE
  | WALL
  | HEAL_AREA
  | STEALTH
deriving DecidableEq

/-- Obstacle kind (`type` tag of an obstacle). -/
inductive ObstacleType
  | WALL
  | GOAL_BLUE
  | GOAL_RED
deriving DecidableEq

/-- Terminal result reported through `onGameOver`. -/
inductive GameResult
  | VICTORY
  | DEFEAT
  | DRAW
deriving DecidableEq

-- Constants of `src/unnamed/part_001` (only the mechanical ones; FPS and
-- TILE_SIZE drive presentation only).
def WORLD_WIDTH : ℚ := 2000
def WORLD_HEIGHT : ℚ := 1500
def MAX_AMMO : ℚ := 3
def GEM_SPAWN_RATE : ℕ := 300
def RESPAWN_TIME : ℕ := 180
def WIN_GEM_COUNT : ℕ := 10
def WIN_GOAL_COUNT : ℕ := 3
def SUPER_CHARGE_MAX : ℚ := 100
def BALL_FRICTION : ℚ := 24/25
def BALL_THROW_SPEED : ℚ := 22
def BALL_PICKUP_COOLDOWN : ℕ := 30

/-- Mechanical character statistics (`CharacterStats` minus the
presentation-only `name`, `role`, `color`, `description` fields; the
table's `maxHp` duplicates `hp` and is never read by the engine, which
uses `stats.hp` for both, so it is kept for faithfulness). -/
structure CharacterStats where
  id : String
  hp : ℚ
  maxHp : ℚ
  speed : ℚ
  damage : ℚ
  reloadTime : ℚ
  range : ℚ
  projectileSpeed : ℚ
  projectileSize : ℚ
  projectileCount : ℕ
  spread : ℚ
  superChargeRate : ℚ
  superType : SuperType
deriving DecidableEq

/-- The character table `CHARACTERS` of `src/unnamed/part_001`. -/
def CHARACTERS : List CharacterStats :=
  [ { id := "neon-ninja", hp := 3600, maxHp := 3600, speed := 7, damage := 900,
      reloadTime := 40, range := 350, projectileSpeed := 18, projectileSize := 20,
      projectileCount := 1, spread := 0, superChargeRate := 25, superType := .DASH },
    { id := "tank-top", hp := 6000, maxHp := 6000, speed := 5, damage := 350,
      reloadTime := 55, range := 350, projectileSpeed := 14, projectileSize := 12,
      projectileCount := 5, spread := 2/5, superChargeRate := 15, superType := .SLAM },
    { id := "viper", hp := 2600, maxHp := 2600, speed := 11/2, damage := 1800,
      reloadTime := 90, range := 1000, projectileSpeed := 32, projectileSize := 15,
      projectileCount := 1, spread := 0, superChargeRate := 35, superType := .GRENADE },
    { id := "glitch", hp := 3600, maxHp := 3600, speed := 6, damage := 700,
      reloadTime := 30, range := 550, projectileSpeed := 14, projectileSize := 25,
      projectileCount := 1, spread := 1/10, superChargeRate := 25, superType := .TELEPORT },
    { id := "inferno", hp := 4200, maxHp := 4200, speed := 6, damage := 250,
      reloadTime := 6, range := 280, projectileSpeed := 12, projectileSize := 28,
      projectileCount := 1, spread := 1/4, superChargeRate := 5, superType := .RAPID_FIRE },
    { id := "doc-drone", hp := 3200, maxHp := 3200, speed := 29/5, damage := 550,
      reloadTime := 45, range := 650, projectileSpeed := 16, projectileSize := 15,
      projectileCount := 1, spread := 0, superChargeRate := 20, superType := .HEAL_AREA },
    { id := "knuckles", hp := 6500, maxHp := 6500, speed := 31/5, damage := 1400,
      reloadTime := 35, range := 120, projectileSpeed := 0, projectileSize := 60,
      projectileCount := 1, spread := 0, superChargeRate := 25, superType := .DASH },
    { id := "ghost", hp := 3000, maxHp := 3000, speed := 15/2, damage := 1100,
      reloadTime := 40, range := 200, projectileSpeed := 20, projectileSize := 10,
      projectileCount := 1, spread := 0, superChargeRate := 30, superType := .STEALTH },
    { id := "boombox", hp := 4000, maxHp := 4000, speed := 11/2, damage := 950,
      reloadTime := 60, range := 650, projectileSpeed := 14, projectileSize := 18,
      projectileCount := 2, spread := 1/5, superChargeRate := 20, superType := .SLAM },
    { id := "architect", hp := 3500, maxHp := 3500, speed := 26/5, damage := 450,
      reloadTime := 25, range := 750, projectileSpeed := 22, projectileSize := 12,
      projectileCount := 1, spread := 0, superChargeRate := 20, superType := .WALL } ]

/-- `CHARACTERS.find(c => c.id === cid)` with the `|| CHARACTERS[0]`
fallback of `createPlayer` (the `update` loop asserts presence with `!`;
every character id the game constructs is in the table, so the fallback
is unreachable there). -/
def charOf (cid : String) : CharacterStats :=
  (CHARACTERS.find? (fun c => decide (c.id = cid))).getD
    { id := "neon-ninja", hp := 3600, maxHp := 3600, speed := 7, damage := 900,
      reloadTime := 40, range := 350, projectileSpeed := 18, projectileSize := 20,
      projectileCount := 1, spread := 0, superChargeRate := 25, superType := .DASH }

/-- A combatant (`PlayerEntity`), minus the presentation-only
`hitFlashTimer`, `lastAttackTime`, `lastSuperTime` fields.  `angle` is
the facing direction resolved to `(cos θ, sin θ)`.  The source's
optional `dashFrames`/`dashVector` are modelled as `0`/`(0, 0)` while
absent (they are only read under a `dashFrames > 0` guard, and are
always assigned together). -/
structure PlayerEntity where
  id : String
  characterId : String
  team : Team
  isBot : Bool
  x : ℚ
  y : ℚ
  radius : ℚ
  hp : ℚ
  maxHp : ℚ
  angle : ℚ × ℚ
  isMoving : Bool
  ammo : ℚ
  maxAmmo : ℚ
  reloadTimer : ℚ
  respawnTimer : ℕ
  gemCount : ℕ
  superCharge : ℚ
  killCount : ℕ
  dashFrames : ℕ
  dashVector : ℚ × ℚ
deriving DecidableEq

/-- A projectile (`Projectile`); the cosmetic `color` and `Date.now()`
based `id` are dropped / constant. -/
structure Projectile where
  id : String
  ownerId : String
  team : Team
  x : ℚ
  y : ℚ
  vx : ℚ
  vy : ℚ
  radius : ℚ
  damage : ℚ
  rangeRemaining : ℚ
  isSuper : Bool
deriving DecidableEq

/-- A gem pickup (`Gem`); `spawnTimer` is written as `0` at creation and
never read. -/
structure Gem where
  id : String
  x : ℚ
  y : ℚ
  radius : ℚ
  spawnTimer : ℕ
deriving DecidableEq

/-- An axis-aligned obstacle (`Obstacle`); the unused `radius: 0` field
is dropped. -/
structure Obstacle where
  id : String
  x : ℚ
  y : ℚ
  width : ℚ
  height : ℚ
  type : ObstacleType
deriving DecidableEq

/-- The ball of CYBER_BALL mode. -/
structure Ball where
  id : String
  x : ℚ
  y : ℚ
  radius : ℚ
  vx : ℚ
  vy : ℚ
  carrierId : Option String
  cooldown : ℕ
deriving DecidableEq

/-- The world (`GameWorld`), plus a `result` field recording the
argument of the latest `onGameOver` invocation (the callback fires and
the loop keeps ticking until the host unmounts it). -/
structure GameWorld where
  width : ℚ
  height : ℚ
  mode : GameMode
  players : List PlayerEntity
  projectiles : List Projectile
  gems : List Gem
  obstacles : List Obstacle
  gemSpawnerTimer : ℕ
  scoreBlue : ℕ
  scoreRed : ℕ
  countDownTimer : Option ℤ
  goalResetTimer : ℕ
  ball : Option Ball
  result : Option GameResult
deriving DecidableEq

/-- The resolved per-player outcome of the input/AI block of a tick
(lines 450-504): movement direction (the unit/joystick vector before
the `moveSpeed` scaling), the new facing direction, the `isMoving`
flag, the two trigger flags, and the fire direction
`(cos fireAngle, sin fireAngle)`. -/
structure Decision where
  ux : ℚ
  uy : ℚ
  moving : Bool
  angle : ℚ × ℚ
  firing : Bool
  superFiring : Bool
  fire : ℚ × ℚ
deriving DecidableEq

/-- All inputs and random samples of one tick, resolved ahead of time,
together with the `Math.sqrt` oracle `sq` (see the header comment). -/
structure TickEnv where
  decide : String → Decision
  spreadDir : String → ℕ → ℚ × ℚ
  respawnOff : String → ℚ
  dropOff : ℕ → ℚ × ℚ
  gemOff : ℚ × ℚ
  sq : ℚ → ℚ
  selChar : String
  enemyChars : ℕ → String

-- Spatial utilities ---------------------------------------------------

/-- `checkCircleRect` (lines 17-23): clamp the circle centre to the
rectangle, compare squared distance with squared radius. -/
def checkCircleRect (cx cy r : ℚ) (o : Obstacle) : Bool :=
  let testX := if cx < o.x then o.x else if o.x + o.width < cx then o.x + o.width else cx
  let testY := if cy < o.y then o.y else if o.y + o.height < cy then o.y + o.height else cy
  let dX := cx - testX
  let dY := cy - testY
  decide (dX * dX + dY * dY ≤ r * r)

/-- The comparison `dist(a, b) < r` of the source (line 14), translated
exactly: `Math.sqrt(d) < r ↔ 0 < r ∧ d < r^2`. -/
def distLt (ax ay bx bY r : ℚ) : Bool :=
  decide (0 < r) && decide ((ax - bx) * (ax - bx) + (ay - bY) * (ay - bY) < r * r)

/-- `Math.max(0, Math.min(hi, v))` (lines 434-435, 515). -/
def clampQ (hi v : ℚ) : ℚ := max 0 (min hi v)

-- Small list helpers mirroring the source's loop idioms --------------

/-- Index of the first list element satisfying `p` (a `for … break`
loop over the list). -/
def findFirstIdx (p : α → Bool) : List α → Option ℕ
  | [] => none
  | a :: l => if p a then some 0 else (findFirstIdx p l).map (· + 1)

/-- Apply `f` to the element at index `j` (in-place mutation of one
array element). -/
def modifyAt (f : α → α) : ℕ → List α → List α
  | _, [] => []
  | 0, a :: l => f a :: l
  | j + 1, a :: l => a :: modifyAt f j l

/-- Apply `f` to the first element satisfying `p`
(`arr.find(p)` followed by mutation of the found element). -/
def modifyFirst (p : α → Bool) (f : α → α) : List α → List α
  | [] => []
  | a :: l => if p a then f a :: l else a :: modifyFirst p f l

-- Player phase --------------------------------------------------------

/-- Respawn countdown handling (lines 400-410): decrement, and on
reaching zero restore health and ammo and move to the team spawn
column; the y offset is the resolved `Math.random() * 200 - 100`
sample. -/
def respawnTick (env : TickEnv) (p : PlayerEntity) : PlayerEntity :=
  let t := p.respawnTimer - 1
  if t = 0 then
    { p with respawnTimer := 0, hp := p.maxHp, ammo := p.maxAmmo,
             x := if p.team = Team.BLUE then 200 else WORLD_WIDTH - 200,
             y := WORLD_HEIGHT / 2 + env.respawnOff p.id }
  else { p with respawnTimer := t }

/-- Movement of a dashing player before the clamp (lines 413-423):
decrement the dash counter, translate by the dash vector, stop the
dash dead on wall contact. -/
def dashMoved (obstacles : List Obstacle) (p : PlayerEntity) : PlayerEntity :=
  let p1 := { p with dashFrames := p.dashFrames - 1,
                     x := p.x + p.dashVector.1, y := p.y + p.dashVector.2 }
  let hitWall := obstacles.any
    (fun o => decide (o.type = ObstacleType.WALL) && checkCircleRect p1.x p1.y p1.radius o)
  if hitWall then { p1 with dashFrames := 0 } else p1

/-- The dasher at the end of its branch (lines 434-435): the moved
player clamped to the arena. -/
def dashFinal (obstacles : List Obstacle) (p : PlayerEntity) : PlayerEntity :=
  let q := dashMoved obstacles p
  { q with x := clampQ WORLD_WIDTH q.x, y := clampQ WORLD_HEIGHT q.y }

/-- Graze damage of a DASH/SLAM dash (lines 425-433): every opposing,
non-respawning player overlapping the dasher (at its moved, pre-clamp
position `q`) loses 50 hp. -/
def dashDamage (q : PlayerEntity) (t : PlayerEntity) : PlayerEntity :=
  if decide (t.team ≠ q.team) && decide (t.respawnTimer = 0) &&
     distLt q.x q.y t.x t.y (q.radius + t.radius)
  then { t with hp := t.hp - 50 } else t

/-- One tick of a dashing player (the whole `dashFrames > 0` branch):
the dasher's own row is replaced by `dashSelf`, and for DASH/SLAM
characters every other row receives the graze-damage pass.  `q` below
is the dasher at its moved, pre-clamp position, matching the source
where the damage loop runs after the translation and before the
clamp. -/
def dashTick (stats : CharacterStats) (i : ℕ) (p : PlayerEntity)
    (w : GameWorld) : List PlayerEntity :=
  let q := dashMoved w.obstacles p
  let players1 :=
    if stats.superType = SuperType.DASH ∨ stats.superType = SuperType.SLAM then
      w.players.map (dashDamage q)
    else w.players
  players1.set i (dashFinal w.obstacles p)

/-- Reload accumulation (lines 439-442). -/
def reloadTick (stats : CharacterStats) (p : PlayerEntity) : PlayerEntity :=
  if p.ammo < p.maxAmmo then
    let t := p.reloadTimer + 1
    if stats.reloadTime ≤ t then { p with ammo := p.ammo + 1, reloadTimer := 0 }
    else { p with reloadTimer := t }
  else p

/-- Movement resolution (lines 444-448, 506-515): scale the resolved
movement direction by the character speed (with the 0.85 ball-carrier
penalty), test the X and Y displacements independently against every
wall, apply the unobstructed axes, clamp to the arena.  The facing
angle and `isMoving` flag take the resolved values of the input/AI
block. -/
def movePhase (stats : CharacterStats) (d : Decision) (hasBall : Bool)
    (obstacles : List Obstacle) (p : PlayerEntity) : PlayerEntity :=
  let moveSpeed := stats.speed * (if hasBall then (17/20 : ℚ) else 1)
  let dx := d.ux * moveSpeed
  let dy := d.uy * moveSpeed
  let nextX := p.x + dx
  let nextY := p.y + dy
  let collidesX := obstacles.any
    (fun o => decide (o.type = ObstacleType.WALL) && checkCircleRect nextX p.y p.radius o)
  let collidesY := obstacles.any
    (fun o => decide (o.type = ObstacleType.WALL) && checkCircleRect p.x nextY p.radius o)
  let x1 := if collidesX then p.x else nextX
  let y1 := if collidesY then p.y else nextY
  { p with angle := d.angle, isMoving := d.moving,
           x := clampQ WORLD_WIDTH x1, y := clampQ WORLD_HEIGHT y1 }

/-- Result of the action-execution block of one player: the updated
player, the projectiles and obstacles it appended, the ball state, and
whether the super switch (an ability dispatch, lines 571-580) was
entered. -/
structure ActionOut where
  player : PlayerEntity
  newProjectiles : List Projectile
  newObstacles : List Obstacle
  ball : Option Ball
  dispatched : Bool

/-- The super dispatch switch (lines 531-534 and 570-580): reset the
charge to zero, then apply the character's fixed ability variant. -/
def superDispatch (stats : CharacterStats) (d : Decision) (p : PlayerEntity)
    (ball : Option Ball) : ActionOut :=
  let p0 := { p with superCharge := 0 }
  match stats.superType with
  | SuperType.DASH =>
      ⟨{ p0 with dashFrames := 10, dashVector := (d.fire.1 * 25, d.fire.2 * 25) },
        [], [], ball, true⟩
  | SuperType.SLAM =>
      ⟨{ p0 with dashFrames := 10, dashVector := (d.fire.1 * 25, d.fire.2 * 25) },
        [], [], ball, true⟩
  | SuperType.TELEPORT =>
      ⟨{ p0 with x := p0.x + d.fire.1 * 250, y := p0.y + d.fire.2 * 250 },
        [], [], ball, true⟩
  | SuperType.GRENADE =>
      ⟨p0,
        [ { id := "", ownerId := p0.id, team := p0.team, x := p0.x, y := p0.y,
            vx := d.fire.1 * 25, vy := d.fire.2 * 25, radius := 40, damage := 2000,
            rangeRemaining := 800, isSuper := true } ],
        [], ball, true⟩
  | SuperType.RAPID_FIRE =>
      ⟨{ p0 with ammo := 10, maxAmmo := 10 }, [], [], ball, true⟩
  | SuperType.WALL =>
      ⟨p0, [],
        [ { id := "", x := p0.x + d.fire.1 * 100, y := p0.y + d.fire.2 * 100,
            width := 60, height := 60, type := ObstacleType.WALL } ],
        ball, true⟩
  | SuperType.HEAL_AREA =>
      ⟨{ p0 with hp := min p0.maxHp (p0.hp + 2000) }, [], [], ball, true⟩
  | SuperType.STEALTH =>
      ⟨p0, [], [], ball, true⟩

/-- The normal firing branch (lines 581-597): consume one ammo, reset
the reload progress, spawn `projectileCount` projectiles offset 30
units along their (spread-resolved) directions. -/
def fireShot (env : TickEnv) (stats : CharacterStats) (p : PlayerEntity)
    (ball : Option Ball) : ActionOut :=
  let projs : List Projectile := (List.range stats.projectileCount).map (fun j =>
    let dir := env.spreadDir p.id j
    { id := "", ownerId := p.id, team := p.team,
      x := p.x + dir.1 * 30, y := p.y + dir.2 * 30,
      vx := dir.1 * stats.projectileSpeed, vy := dir.2 * stats.projectileSpeed,
      radius := stats.projectileSize / 2, damage := stats.damage,
      rangeRemaining := stats.range, isSuper := false })
  ⟨{ p with ammo := p.ammo - 1, reloadTimer := 0 }, projs, [], ball, false⟩

/-- Action execution (lines 517-597): the ball-carrier throw branch,
the guarded super dispatch, or the guarded normal shot. -/
def actionExec (env : TickEnv) (stats : CharacterStats) (d : Decision)
    (hasBall : Bool) (p : PlayerEntity) (ball : Option Ball) : ActionOut :=
  if hasBall && (d.firing || d.superFiring) then
    match ball with
    | some b =>
        let throwPower := if d.superFiring then BALL_THROW_SPEED * (3/2) else BALL_THROW_SPEED
        let b1 := { b with carrierId := none, cooldown := BALL_PICKUP_COOLDOWN,
                           vx := d.fire.1 * throwPower, vy := d.fire.2 * throwPower }
        let p1 := if !d.superFiring && decide (0 < p.ammo)
                  then { p with ammo := p.ammo - 1 } else p
        let p2 := if d.superFiring && decide (SUPER_CHARGE_MAX ≤ p1.superCharge)
                  then { p1 with superCharge := 0 } else p1
        ⟨p2, [], [], some b1, false⟩
    | none => ⟨p, [], [], none, false⟩
  else if d.superFiring && decide (SUPER_CHARGE_MAX ≤ p.superCharge) then
    superDispatch stats d p ball
  else if d.firing && decide (0 < p.ammo) then
    fireShot env stats p ball
  else ⟨p, [], [], ball, false⟩

/-- Gem collection (lines 599-605): in GEM_GRAB the player collects
every overlapping gem (the source iterates backwards and splices, which
on independent per-gem tests is a filter). -/
def collectGems (mode : GameMode) (p : PlayerEntity) (gems : List Gem) :
    PlayerEntity × List Gem :=
  if mode = GameMode.GEM_GRAB then
    let got := (gems.filter (fun g => distLt p.x p.y g.x g.y (p.radius + g.radius))).length
    ({ p with gemCount := p.gemCount + got },
     gems.filter (fun g => !distLt p.x p.y g.x g.y (p.radius + g.radius)))
  else (p, gems)

/-- One iteration of the per-player loop (lines 396-606) for the player
at index `i`, threading the world: the respawn branch, the dash branch,
or the full reload / decide / move / act / collect pipeline. -/
def playerStep (env : TickEnv) (i : ℕ) (w : GameWorld) : GameWorld :=
  match w.players.get? i with
  | none => w
  | some p =>
    let stats := charOf p.characterId
    if p.respawnTimer ≠ 0 then
      { w with players := w.players.set i (respawnTick env p) }
    else if p.dashFrames ≠ 0 then
      { w with players := dashTick stats i p w }
    else
      let p1 := reloadTick stats p
      let d := env.decide p.id
      let hasBall := decide (w.ball.bind Ball.carrierId = some p.id)
      let p2 := movePhase stats d hasBall w.obstacles p1
      let a := actionExec env stats d hasBall p2 w.ball
      let pg := collectGems w.mode a.player w.gems
      { w with players := w.players.set i pg.1,
               gems := pg.2,
               projectiles := w.projectiles ++ a.newProjectiles,
               obstacles := w.obstacles ++ a.newObstacles,
               ball := a.ball }

/-- The whole player phase: the source's `forEach`, which never adds or
removes players, as a fold over the initial indices. -/
def playersPhase (env : TickEnv) (w : GameWorld) : GameWorld :=
  (List.range w.players.length).foldl (fun w' i => playerStep env i w') w

-- Mode phase ----------------------------------------------------------

/-- Team gem total: the `blueGems`/`redGems` accumulation of lines
319-321. -/
def teamGemSum (t : Team) (ps : List PlayerEntity) : ℕ :=
  ((ps.filter (fun p => decide (p.team = t))).map PlayerEntity.gemCount).sum

/-- GEM_GRAB mode logic (lines 307-333): gem spawner, score assignment
from the gem totals, and the win-countdown bookkeeping. -/
def gemGrabPhase (env : TickEnv) (w : GameWorld) : GameWorld :=
  let t1 := w.gemSpawnerTimer + 1
  let spawn : Bool := decide (GEM_SPAWN_RATE < t1) && decide (w.gems.length < 10)
  let t2 := if spawn then 0 else t1
  let gems1 := if spawn then
      w.gems ++ [ { id := "", x := WORLD_WIDTH / 2 + env.gemOff.1,
                    y := WORLD_HEIGHT / 2 + env.gemOff.2, radius := 12, spawnTimer := 0 } ]
    else w.gems
  let sb := teamGemSum Team.BLUE w.players
  let sr := teamGemSum Team.RED w.players
  let w1 := { w with gemSpawnerTimer := t2, gems := gems1, scoreBlue := sb, scoreRed := sr }
  if WIN_GEM_COUNT ≤ sb ∨ WIN_GEM_COUNT ≤ sr then
    match w.countDownTimer with
    | none => { w1 with countDownTimer := some (15 * 60) }
    | some t =>
        let t' := t - 1
        { w1 with countDownTimer := some t',
                  result := if t' ≤ 0 then
                      some (if WIN_GEM_COUNT ≤ sb then GameResult.VICTORY else GameResult.DEFEAT)
                    else w.result }
  else { w1 with countDownTimer := none }

/-- One step of the ball's wall-bounce `forEach` (lines 354-359): the
candidate positions are tested with the current (possibly already
flipped) velocity components. -/
def ballBounce (o : Obstacle) (b : Ball) : Ball :=
  if o.type = ObstacleType.WALL then
    let b1 := if checkCircleRect (b.x + b.vx) b.y b.radius o then { b with vx := -b.vx } else b
    if checkCircleRect b1.x (b1.y + b1.vy) b1.radius o then { b1 with vy := -b1.vy } else b1
  else b

/-- One step of the goal-check `forEach` (lines 372-382), accumulating
the scores, the freeze timer and the ball. -/
def goalCheck (acc : ℕ × ℕ × ℕ × Ball) (o : Obstacle) : ℕ × ℕ × ℕ × Ball :=
  let sb := acc.1
  let sr := acc.2.1
  let grt := acc.2.2.1
  let b := acc.2.2.2
  if (o.type = ObstacleType.GOAL_BLUE ∨ o.type = ObstacleType.GOAL_RED) ∧
     checkCircleRect b.x b.y b.radius o then
    let sb' := if o.type = ObstacleType.GOAL_BLUE then sb else sb + 1
    let sr' := if o.type = ObstacleType.GOAL_BLUE then sr + 1 else sr
    (sb', sr', 180, { b with vx := 0, vy := 0, x := -1000 })
  else (sb, sr, grt, b)

/-- CYBER_BALL mode logic (lines 334-392): carried-ball snap or free
flight with friction, wall and border bounces, pickup by the first
overlapping eligible player, goal detection, and the match countdown. -/
def cyberBallPhase (w : GameWorld) : GameWorld :=
  match w.ball with
  | none => w
  | some b0 =>
    let b1 := if 0 < b0.cooldown then { b0 with cooldown := b0.cooldown - 1 } else b0
    let afterBall : GameWorld :=
      match b1.carrierId with
      | some cid =>
          (match w.players.find? (fun p => decide (p.id = cid)) with
           | some c =>
               if c.respawnTimer = 0 then
                 { w with ball := some { b1 with x := c.x + c.angle.1 * 20,
                                                 y := c.y + c.angle.2 * 20, vx := 0, vy := 0 } }
               else { w with ball := some { b1 with carrierId := none } }
           | none => { w with ball := some { b1 with carrierId := none } })
      | none =>
          let b2 := { b1 with x := b1.x + b1.vx, y := b1.y + b1.vy,
                              vx := b1.vx * BALL_FRICTION, vy := b1.vy * BALL_FRICTION }
          let b3 := w.obstacles.foldl (fun b o => ballBounce o b) b2
          let b4 := if b3.x < 0 ∨ WORLD_WIDTH < b3.x then { b3 with vx := -b3.vx } else b3
          let b5 := if b4.y < 0 ∨ WORLD_HEIGHT < b4.y then { b4 with vy := -b4.vy } else b4
          let b6 := if b5.cooldown = 0 then
              match w.players.find? (fun p =>
                  decide (p.respawnTimer = 0) && distLt p.x p.y b5.x b5.y (p.radius + b5.radius)) with
              | some p => { b5 with carrierId := some p.id }
              | none => b5
            else b5
          let g := w.obstacles.foldl goalCheck (w.scoreBlue, w.scoreRed, w.goalResetTimer, b6)
          { w with scoreBlue := g.1, scoreRed := g.2.1, goalResetTimer := g.2.2.1,
                   ball := some g.2.2.2 }
    match afterBall.countDownTimer with
    | none => afterBall
    | some t =>
        let t1 := t - 1
        let res :=
          if t1 ≤ 0 ∨ WIN_GOAL_COUNT ≤ afterBall.scoreBlue ∨
             WIN_GOAL_COUNT ≤ afterBall.scoreRed then
            some (if afterBall.scoreBlue = afterBall.scoreRed ∧ t1 ≤ 0 then GameResult.DRAW
                  else if afterBall.scoreRed < afterBall.scoreBlue then GameResult.VICTORY
                  else GameResult.DEFEAT)
          else afterBall.result
        { afterBall with countDownTimer := some t1, result := res }

/-- The mode-logic phase (step 1 of `update`). -/
def modePhase (env : TickEnv) (w : GameWorld) : GameWorld :=
  match w.mode with
  | GameMode.GEM_GRAB => gemGrabPhase env w
  | GameMode.CYBER_BALL => cyberBallPhase w

-- Match initialisation ------------------------------------------------

/-- `createPlayer` of `resetPositions` (lines 240-249). -/
def createPlayer (id charId : String) (team : Team) (isBot : Bool) (x y : ℚ) :
    PlayerEntity :=
  let stats := charOf charId
  { id := id, characterId := charId, team := team, isBot := isBot, x := x, y := y,
    radius := 24, hp := stats.hp, maxHp := stats.hp, angle := (1, 0), isMoving := false,
    ammo := MAX_AMMO, maxAmmo := MAX_AMMO, reloadTimer := 0, respawnTimer := 0,
    gemCount := 0, superCharge := 0, killCount := 0, dashFrames := 0, dashVector := (0, 0) }

/-- `resetPositions` (lines 237-272): rebuild the six players (the
selected character for the human, fixed allies, the resolved random
enemy characters) and re-centre the ball. -/
def resetPositions (env : TickEnv) (w : GameWorld) : GameWorld :=
  { w with
    players :=
      [ createPlayer "player" env.selChar Team.BLUE false 200 (WORLD_HEIGHT / 2),
        createPlayer "bot_ally_1" "viper" Team.BLUE true 200 (WORLD_HEIGHT / 2 - 200),
        createPlayer "bot_ally_2" "tank-top" Team.BLUE true 200 (WORLD_HEIGHT / 2 + 200),
        createPlayer "bot_enemy_1" (env.enemyChars 0) Team.RED true (WORLD_WIDTH - 200)
          (WORLD_HEIGHT / 2),
        createPlayer "bot_enemy_2" (env.enemyChars 1) Team.RED true (WORLD_WIDTH - 200)
          (WORLD_HEIGHT / 2 - 200),
        createPlayer "bot_enemy_3" (env.enemyChars 2) Team.RED true (WORLD_WIDTH - 200)
          (WORLD_HEIGHT / 2 + 200) ],
    ball := w.ball.map (fun b =>
      { b with x := WORLD_WIDTH / 2, y := WORLD_HEIGHT / 2, vx := 0, vy := 0,
               carrierId := none, cooldown := 60 }) }

-- Projectile phase ----------------------------------------------------

/-- Projectile advancement (lines 611-612): integrate the velocity and
consume range by the velocity magnitude `Math.sqrt(vx*vx + vy*vy)`
(the `sq` oracle). -/
def projAdvance (env : TickEnv) (pr : Projectile) : Projectile :=
  { pr with x := pr.x + pr.vx, y := pr.y + pr.vy,
            rangeRemaining := pr.rangeRemaining - env.sq (pr.vx * pr.vx + pr.vy * pr.vy) }

/-- Wall test of a projectile (line 614). -/
def projWallHit (pr : Projectile) (obstacles : List Obstacle) : Bool :=
  obstacles.any (fun o =>
    decide (o.type = ObstacleType.WALL) && checkCircleRect pr.x pr.y pr.radius o)

/-- Hit eligibility of a player for a projectile (line 617): opposing
team, not respawning, circles overlapping. -/
def projHits (pr : Projectile) (p : PlayerEntity) : Bool :=
  decide (p.team ≠ pr.team) && decide (p.respawnTimer = 0) &&
    distLt p.x p.y pr.x pr.y (p.radius + pr.radius)

/-- Damage application on hit (line 619). -/
def damageBy (pr : Projectile) (p : PlayerEntity) : PlayerEntity :=
  { p with hp := p.hp - pr.damage }

/-- The owner's super-charge gain (line 634), clamped at the cap; the
owner's character is looked up without a fallback, and a missing entry
skips the gain. -/
def chargeGain (p : PlayerEntity) : PlayerEntity :=
  match CHARACTERS.find? (fun c => decide (c.id = p.characterId)) with
  | some stats =>
      { p with superCharge := min SUPER_CHARGE_MAX (p.superCharge + stats.superChargeRate) }
  | none => p

/-- Death bookkeeping on the victim (line 636). -/
def setRespawn (p : PlayerEntity) : PlayerEntity :=
  { p with respawnTimer := RESPAWN_TIME }

/-- Kill credit on the owner (line 640). -/
def addKill (p : PlayerEntity) : PlayerEntity :=
  { p with killCount := p.killCount + 1 }

/-- Clearing the victim's gems on death (line 642). -/
def clearGems (p : PlayerEntity) : PlayerEntity :=
  { p with gemCount := 0 }

/-- Everything the source does once a projectile has found its first
eligible player at index `j` (lines 618-646): damage, the owner's
charge gain, and on death the respawn countdown, kill credit and gem
drop (GEM_GRAB) or ball release (CYBER_BALL, victim carrying). -/
def applyHit (env : TickEnv) (pr : Projectile) (j : ℕ) (w : GameWorld) : GameWorld :=
  match w.players.get? j with
  | none => w
  | some victim =>
    let players1 := modifyAt (damageBy pr) j w.players
    let players2 := modifyFirst (fun pl => decide (pl.id = pr.ownerId)) chargeGain players1
    if victim.hp - pr.damage ≤ 0 then
      let players3 := modifyAt setRespawn j players2
      let players4 := modifyFirst (fun pl => decide (pl.id = pr.ownerId)) addKill players3
      if w.mode = GameMode.GEM_GRAB then
        let gemsToDrop := min victim.gemCount 5
        let players5 := modifyAt clearGems j players4
        let drops : List Gem := (List.range gemsToDrop).map (fun g =>
          { id := "", x := victim.x + (env.dropOff g).1, y := victim.y + (env.dropOff g).2,
            radius := 12, spawnTimer := 0 })
        { w with players := players5, gems := w.gems ++ drops }
      else if w.ball.bind Ball.carrierId = some victim.id then
        { w with players := players4,
                 ball := w.ball.map (fun b => { b with carrierId := none, cooldown := 30 }) }
      else { w with players := players4 }
    else { w with players := players2 }

/-- Processing of one projectile (lines 609-651): advance, test walls
first, then (only if no wall was hit) find the first eligible player;
the projectile survives only if nothing was hit and range remains. -/
def projStep (env : TickEnv) (pr : Projectile) (w : GameWorld) :
    GameWorld × Option Projectile :=
  let pr1 := projAdvance env pr
  if projWallHit pr1 w.obstacles then (w, none)
  else
    match findFirstIdx (projHits pr1) w.players with
    | some j => (applyHit env pr1 j w, none)
    | none => if pr1.rangeRemaining ≤ 0 then (w, none) else (w, some pr1)

/-- The projectile loop: the source iterates the array from the last
index down and splices, so the last projectile is processed first and
relative order of survivors is preserved. -/
def projLoop (env : TickEnv) : List Projectile → GameWorld → GameWorld × List Projectile
  | [], w => (w, [])
  | pr :: rest, w =>
      let tail := projLoop env rest w
      let head := projStep env pr tail.1
      (head.1, head.2.toList ++ tail.2)

/-- The projectile phase (step 3 of `update`). -/
def projPhase (env : TickEnv) (w : GameWorld) : GameWorld :=
  let r := projLoop env w.projectiles w
  { r.1 with projectiles := r.2 }

/-- One simulation tick (`update`, lines 283-652): the goal-freeze
early return (lines 291-295), then mode logic, the player loop and the
projectile loop in order.  The visual-effect update (lines 297-304)
touches no gameplay state and is omitted. -/
def update (env : TickEnv) (w : GameWorld) : GameWorld :=
  if 0 < w.goalResetTimer then
    let t := w.goalResetTimer - 1
    if t = 0 then resetPositions env { w with goalResetTimer := 0 }
    else { w with goalResetTimer := t }
  else projPhase env (playersPhase env (modePhase env w))

-- Concrete scenarios used by counterexamples and witnesses ------------

/-- The idle decision: no movement, no triggers, facing right. -/
def noDecision : Decision :=
  { ux := 0, uy := 0, moving := false, angle := (1, 0), firing := false,
    superFiring := false, fire := (1, 0) }

/-- A benign environment: idle inputs, axis-aligned fire directions,
centred random samples, and a square-root oracle that is exact on the
only magnitudes arising in the scenarios below (`sq 324 = 18 = √324`,
`sq 0 = 0 = √0`). -/
def baseEnv : TickEnv :=
  { decide := fun _ => noDecision, spreadDir := fun _ _ => (1, 0),
    respawnOff := fun _ => 0, dropOff := fun _ => (0, 0), gemOff := (0, 0),
    sq := fun q => if q = 324 then 18 else 0, selChar := "neon-ninja",
    enemyChars := fun _ => "viper" }

/-- An empty GEM_GRAB world at match start. -/
def emptyWorld : GameWorld :=
  { width := WORLD_WIDTH, height := WORLD_HEIGHT, mode := GameMode.GEM_GRAB,
    players := [], projectiles := [], gems := [], obstacles := [],
    gemSpawnerTimer := 0, scoreBlue := 0, scoreRed := 0, countDownTimer := none,
    goalResetTimer := 0, ball := none, result := none }

/-- C1 scenario: a fully charged glitch (TELEPORT) standing on the
right arena edge. -/
def teleportWorld : GameWorld :=
  { emptyWorld with
    players := [ { createPlayer "player" "glitch" Team.BLUE false 2000 750 with
                   superCharge := 100 } ] }

/-- C1 scenario: the human releases the super facing right. -/
def teleportEnv : TickEnv :=
  { baseEnv with decide := fun _ => { noDecision with superFiring := true } }

/-- C2 scenario: the melee punch of knuckles (`projectileSpeed: 0`)
just after spawning 30 units in front of its owner. -/
def knucklesPunch : Projectile :=
  { id := "", ownerId := "player", team := Team.BLUE, x := 230, y := 750,
    vx := 0, vy := 0, radius := 30, damage := 1400, rangeRemaining := 120,
    isSuper := false }

/-- C2 witness scenario: a neon-ninja shot travelling right at speed 18. -/
def ninjaShot : Projectile :=
  { id := "", ownerId := "player", team := Team.BLUE, x := 230, y := 750,
    vx := 18, vy := 0, radius := 10, damage := 900, rangeRemaining := 350,
    isSuper := false }

/-- C3 scenario: a CYBER_BALL match one frame before the goal freeze
expires, with the human inferno already upgraded by RAPID_FIRE. -/
def goalResetWorld : GameWorld :=
  { emptyWorld with
    mode := GameMode.CYBER_BALL,
    goalResetTimer := 1,
    players := [ { createPlayer "player" "inferno" Team.BLUE false 200 750 with
                   ammo := 10, maxAmmo := 10 } ],
    ball := some { id := "ball", x := -1000, y := 750, radius := 15, vx := 0, vy := 0,
                   carrierId := none, cooldown := 0 } }

/-- C3 witness scenario: the same upgraded inferno in a GEM_GRAB match. -/
def rapidGemWorld : GameWorld :=
  { emptyWorld with
    players := [ { createPlayer "player" "inferno" Team.BLUE false 200 750 with
                   ammo := 10, maxAmmo := 10 } ] }

/-- C4 scenario: a player standing on a gem at the arena centre. -/
def gemPickupWorld : GameWorld :=
  { emptyWorld with
    players := [ createPlayer "player" "neon-ninja" Team.BLUE false 1000 750 ],
    gems := [ { id := "g", x := 1000, y := 750, radius := 12, spawnTimer := 0 } ] }

/-- C8 scenario: a lone neon-ninja (`reloadTime: 40`, full ammo 3). -/
def reloadWorld : GameWorld :=
  { emptyWorld with
    players := [ createPlayer "player" "neon-ninja" Team.BLUE false 200 750 ] }

/-- C8 scenario: the fire trigger arrives at tick 0 and never again. -/
def reloadEnv (n : ℕ) : TickEnv :=
  if n = 0 then { baseEnv with decide := fun _ => { noDecision with firing := true } }
  else baseEnv

/-- `(ammo, reloadTimer)` of the first player at the end of each of the
next `n` ticks, starting at tick `t` of the C8 scenario. -/
def ammoTraceFrom : ℕ → ℕ → GameWorld → List (ℚ × ℚ)
  | 0, _, _ => []
  | n + 1, t, w =>
      let w1 := update (reloadEnv t) w
      (((w1.players.head?).map (fun p => (p.ammo, p.reloadTimer))).getD (0, 0)) ::
        ammoTraceFrom n (t + 1) w1

/-- The C8 trace over ticks 0-40. -/
def ammoTrace : List (ℚ × ℚ) := ammoTraceFrom 41 0 reloadWorld

/-- C9 scenario: a carried ball. -/
def carriedBall : Ball :=
  { id := "ball", x := 520, y := 750, radius := 15, vx := 0, vy := 0,
    carrierId := some "player", cooldown := 0 }

-- Predicates used by the theorems ------------------------------------

/-- The position invariant of the spec: the player lies within
`[0, width] × [0, height]`. -/
abbrev InBounds (p : PlayerEntity) : Prop :=
  0 ≤ p.x ∧ p.x ≤ WORLD_WIDTH ∧ 0 ≤ p.y ∧ p.y ≤ WORLD_HEIGHT

/-- The player's character does not carry the TELEPORT ability. -/
abbrev NonTeleportChar (p : PlayerEntity) : Prop :=
  (charOf p.characterId).superType ≠ SuperType.TELEPORT

/-- The respawn-offset samples of the environment lie in the source's
`Math.random() * 200 - 100` range. -/
abbrev RespawnOffOK (env : TickEnv) : Prop :=
  ∀ id, -100 ≤ env.respawnOff id ∧ env.respawnOff id ≤ 100

/-- The square-root oracle is correct at the point `m`. -/
abbrev SqrtOKAt (env : TickEnv) (m : ℚ) : Prop :=
  0 ≤ env.sq m ∧ env.sq m * env.sq m = m

/-- Ammo bookkeeping holds natural numbers (the source only ever
assigns integer ammo values and decrements under a `> 0` guard); this
is the inductive form of "ammo never drops below 0". -/
abbrev AmmoOK (p : PlayerEntity) : Prop :=
  (∃ n : ℕ, p.ammo = n) ∧ ∃ m : ℕ, p.maxAmmo = m

/-- The super charge lies within `[0, SUPER_CHARGE_MAX]`. -/
abbrev ChargeOK (p : PlayerEntity) : Prop :=
  0 ≤ p.superCharge ∧ p.superCharge ≤ SUPER_CHARGE_MAX

/-- Every player row named `pid` carries the elevated RAPID_FIRE
max-ammo value. -/
abbrev RapidMaxAt (pid : String) (p : PlayerEntity) : Prop :=
  p.id = pid → p.maxAmmo = 10

set_option maxRecDepth 100000

-- Generic list lemmas -------------------------------------------------

theorem pw_set {α} {Q : α → Prop} {l : List α} {i : ℕ} {a : α}
    (hl : ∀ b ∈ l, Q b) (ha : Q a) : ∀ b ∈ l.set i a, Q b := by
  intro b hb
  rcases List.mem_or_eq_of_mem_set hb with h | h
  · exact hl b h
  · exact h ▸ ha

theorem pw_map {α} {Q : α → Prop} {f : α → α} {l : List α}
    (hf : ∀ a ∈ l, Q (f a)) : ∀ b ∈ l.map f, Q b := by
  intro b hb
  rcases List.mem_map.mp hb with ⟨a, ha, rfl⟩
  exact hf a ha

theorem pw_modifyAt {α} {Q : α → Prop} {f : α → α}
    (hf : ∀ a, Q a → Q (f a)) :
    ∀ (l : List α) (j : ℕ), (∀ a ∈ l, Q a) → ∀ b ∈ modifyAt f j l, Q b := by
  intro l
  induction l with
  | nil =>
      intro j _ b hb
      cases j <;> simp only [modifyAt] at hb <;> cases hb
  | cons a t ih =>
      intro j hl b hb
      cases j with
      | zero =>
          simp only [modifyAt] at hb
          rcases List.mem_cons.mp hb with h | h
          · exact h ▸ hf a (hl a (List.mem_cons_self a t))
          · exact hl b (List.mem_cons_of_mem a h)
      | succ j =>
          simp only [modifyAt] at hb
          rcases List.mem_cons.mp hb with h | h
          · exact h ▸ hl a (List.mem_cons_self a t)
          · exact ih j (fun c hc => hl c (List.mem_cons_of_mem a hc)) b h

theorem pw_modifyFirst {α} {Q : α → Prop} (pb : α → Bool) {f : α → α}
    (hf : ∀ a, Q a → Q (f a)) :
    ∀ (l : List α), (∀ a ∈ l, Q a) → ∀ b ∈ modifyFirst pb f l, Q b := by
  intro l
  induction l with
  | nil => intro _ b hb; simp only [modifyFirst] at hb; cases hb
  | cons a t ih =>
      intro hl b hb
      simp only [modifyFirst] at hb
      by_cases hpa : pb a
      · rw [if_pos hpa] at hb
        rcases List.mem_cons.mp hb with h | h
        · exact h ▸ hf a (hl a (List.mem_cons_self a t))
        · exact hl b (List.mem_cons_of_mem a h)
      · rw [if_neg hpa] at hb
        rcases List.mem_cons.mp hb with h | h
        · exact h ▸ hl a (List.mem_cons_self a t)
        · exact ih (fun c hc => hl c (List.mem_cons_of_mem a hc)) b h

theorem findFirstIdx_spec {α} {pr : α → Bool} :
    ∀ {l : List α} {j : ℕ}, findFirstIdx pr l = some j →
      (∃ a, l.get? j = some a ∧ pr a = true) ∧
        ∀ k, k < j → ∀ b, l.get? k = some b → pr b = false := by
  intro l
  induction l with
  | nil => intro j h; simp only [findFirstIdx] at h; cases h
  | cons a t ih =>
      intro j h
      simp only [findFirstIdx] at h
      by_cases hpa : pr a
      · rw [if_pos hpa] at h
        injection h with h
        subst h
        exact ⟨⟨a, rfl, hpa⟩, fun k hk => absurd hk (Nat.not_lt_zero k)⟩
      · rw [if_neg hpa] at h
        rcases Option.map_eq_some'.mp h with ⟨j', hj', rfl⟩
        rcases ih hj' with ⟨⟨b, hb, hpb⟩, hmin⟩
        refine ⟨⟨b, hb, hpb⟩, ?_⟩
        intro k hk c hc
        cases k with
        | zero =>
            simp only [List.get?] at hc
            injection hc with hc
            subst hc
            exact Bool.not_eq_true _ ▸ (by simpa using hpa)
        | succ k =>
            exact hmin k (Nat.lt_of_succ_lt_succ hk) c (by simpa using hc)

theorem modifyAt_get?_ne {α} {f : α → α} :
    ∀ (l : List α) (j k : ℕ), j ≠ k → (modifyAt f j l).get? k = l.get? k := by
  intro l
  induction l with
  | nil => intro j k _; cases j <;> rfl
  | cons a t ih =>
      intro j k hjk
      cases j with
      | zero =>
          cases k with
          | zero => exact absurd rfl hjk
          | succ k => rfl
      | succ j =>
          cases k with
          | zero => rfl
          | succ k =>
              simp only [modifyAt, List.get?]
              exact ih j k (fun h => hjk (by rw [h]))

theorem modifyAt_get?_self {α} {f : α → α} :
    ∀ (l : List α) (j : ℕ), (modifyAt f j l).get? j = (l.get? j).map f := by
  intro l
  induction l with
  | nil => intro j; cases j <;> rfl
  | cons a t ih =>
      intro j
      cases j with
      | zero => rfl
      | succ j =>
          simp only [modifyAt, List.get?]
          exact ih j

theorem modifyFirst_get?_map {α β} {pr : α → Bool} {f : α → α} {g : α → β}
    (hf : ∀ a, g (f a) = g a) :
    ∀ (l : List α) (k : ℕ),
      ((modifyFirst pr f l).get? k).map g = (l.get? k).map g := by
  intro l
  induction l with
  | nil => intro k; rfl
  | cons a t ih =>
      intro k
      simp only [modifyFirst]
      by_cases hpa : pr a
      · rw [if_pos hpa]
        cases k with
        | zero => simp [hf]
        | succ k => rfl
      · rw [if_neg hpa]
        cases k with
        | zero => rfl
        | succ k =>
            simp only [List.get?]
            exact ih k

-- Character-id stability of the per-player pipeline -------------------

theorem reloadTick_characterId (stats : CharacterStats) (p : PlayerEntity) :
    (reloadTick stats p).characterId = p.characterId := by
  unfold reloadTick
  split
  · dsimp only
    split <;> rfl
  · rfl

theorem movePhase_characterId (stats : CharacterStats) (d : Decision) (hb : Bool)
    (obstacles : List Obstacle) (p : PlayerEntity) :
    (movePhase stats d hb obstacles p).characterId = p.characterId := rfl

-- Pointwise preservation through the player phase ---------------------

theorem playerStep_pw (env : TickEnv) (Q : PlayerEntity → Prop)
    (hresp : ∀ p, Q p → Q (respawnTick env p))
    (hdashF : ∀ obstacles p, Q p → Q (dashFinal obstacles p))
    (hdashD : ∀ q t, Q t → Q (dashDamage q t))
    (hreload : ∀ stats p, Q p → Q (reloadTick stats p))
    (hmove : ∀ stats d hb obstacles p, Q p → Q (movePhase stats d hb obstacles p))
    (hact : ∀ stats d hb p ball, charOf p.characterId = stats → Q p →
      Q ((actionExec env stats d hb p ball).player))
    (hcollect : ∀ mode p gems, Q p → Q ((collectGems mode p gems).1))
    (i : ℕ) (w : GameWorld) (hw : ∀ p ∈ w.players, Q p) :
    ∀ p ∈ (playerStep env i w).players, Q p := by
  unfold playerStep
  cases hget : w.players.get? i with
  | none => exact hw
  | some p =>
      have hp : Q p := hw p (List.get?_mem hget)
      dsimp only
      by_cases hrt : p.respawnTimer ≠ 0
      · rw [if_pos hrt]
        exact pw_set hw (hresp p hp)
      · rw [if_neg hrt]
        by_cases hdf : p.dashFrames ≠ 0
        · rw [if_pos hdf]
          show ∀ q ∈ dashTick (charOf p.characterId) i p w, Q q
          unfold dashTick
          refine pw_set ?_ (hdashF w.obstacles p hp)
          split
          · exact pw_map (fun a ha => hdashD _ a (hw a ha))
          · exact hw
        · rw [if_neg hdf]
          refine pw_set hw ?_
          refine hcollect _ _ _ ?_
          refine hact _ _ _ _ _ ?_ ?_
          · rw [movePhase_characterId, reloadTick_characterId]
          · exact hmove _ _ _ _ _ (hreload _ _ hp)

theorem playersFold_pw (env : TickEnv) (Q : PlayerEntity → Prop)
    (hstep : ∀ i w, (∀ p ∈ w.players, Q p) → ∀ p ∈ (playerStep env i w).players, Q p) :
    ∀ (l : List ℕ) (w : GameWorld), (∀ p ∈ w.players, Q p) →
      ∀ p ∈ (l.foldl (fun w' i => playerStep env i w') w).players, Q p := by
  intro l
  induction l with
  | nil => intro w hw; exact hw
  | cons i t ih =>
      intro w hw
      exact ih (playerStep env i w) (hstep i w hw)

theorem playersPhase_pw (env : TickEnv) (Q : PlayerEntity → Prop)
    (hstep : ∀ i w, (∀ p ∈ w.players, Q p) → ∀ p ∈ (playerStep env i w).players, Q p)
    (w : GameWorld) (hw : ∀ p ∈ w.players, Q p) :
    ∀ p ∈ (playersPhase env w).players, Q p :=
  playersFold_pw env Q hstep _ w hw

-- Pointwise preservation through the projectile phase -----------------

theorem applyHit_pw (env : TickEnv) (Q : PlayerEntity → Prop)
    (hdmg : ∀ pr p, Q p → Q (damageBy pr p))
    (hcharge : ∀ p, Q p → Q (chargeGain p))
    (hresp2 : ∀ p, Q p → Q (setRespawn p))
    (hkill : ∀ p, Q p → Q (addKill p))
    (hclear : ∀ p, Q p → Q (clearGems p))
    (pr : Projectile) (j : ℕ) (w : GameWorld) (hw : ∀ p ∈ w.players, Q p) :
    ∀ p ∈ (applyHit env pr j w).players, Q p := by
  unfold applyHit
  cases hget : w.players.get? j with
  | none => exact hw
  | some victim =>
      dsimp only
      have h1 := pw_modifyAt (hdmg pr) w.players j hw
      have h2 := pw_modifyFirst (fun pl => decide (pl.id = pr.ownerId)) hcharge _ h1
      have h4 := pw_modifyFirst (fun pl => decide (pl.id = pr.ownerId)) hkill _
        (pw_modifyAt hresp2 _ j h2)
      split
      · split
        · exact pw_modifyAt hclear _ j h4
        · split
          · exact h4
          · exact h4
      · exact h2

theorem projStep_pw (env : TickEnv) (Q : PlayerEntity → Prop)
    (hdmg : ∀ pr p, Q p → Q (damageBy pr p))
    (hcharge : ∀ p, Q p → Q (chargeGain p))
    (hresp2 : ∀ p, Q p → Q (setRespawn p))
    (hkill : ∀ p, Q p → Q (addKill p))
    (hclear : ∀ p, Q p → Q (clearGems p))
    (pr : Projectile) (w : GameWorld) (hw : ∀ p ∈ w.players, Q p) :
    ∀ p ∈ (projStep env pr w).1.players, Q p := by
  unfold projStep
  dsimp only
  split
  · exact hw
  · split
    · exact applyHit_pw env Q hdmg hcharge hresp2 hkill hclear _ _ w hw
    · split <;> exact hw

theorem projLoop_pw (env : TickEnv) (Q : PlayerEntity → Prop)
    (hstep : ∀ pr w, (∀ p ∈ w.players, Q p) → ∀ p ∈ (projStep env pr w).1.players, Q p) :
    ∀ (l : List Projectile) (w : GameWorld), (∀ p ∈ w.players, Q p) →
      ∀ p ∈ (projLoop env l w).1.players, Q p := by
  intro l
  induction l with
  | nil => intro w hw; exact hw
  | cons pr t ih =>
      intro w hw
      exact hstep pr _ (ih w hw)

theorem projPhase_pw (env : TickEnv) (Q : PlayerEntity → Prop)
    (hstep : ∀ pr w, (∀ p ∈ w.players, Q p) → ∀ p ∈ (projStep env pr w).1.players, Q p)
    (w : GameWorld) (hw : ∀ p ∈ w.players, Q p) :
    ∀ p ∈ (projPhase env w).players, Q p :=
  projLoop_pw env Q hstep w.projectiles w hw

-- The mode phase never touches the player list ------------------------

theorem gemGrabPhase_players (env : TickEnv) (w : GameWorld) :
    (gemGrabPhase env w).players = w.players := by
  unfold gemGrabPhase
  dsimp only
  repeat' split
  all_goals rfl

theorem cyberBallPhase_players (w : GameWorld) :
    (cyberBallPhase w).players = w.players := by
  unfold cyberBallPhase
  dsimp only
  repeat' split
  all_goals rfl

theorem modePhase_players (env : TickEnv) (w : GameWorld) :
    (modePhase env w).players = w.players := by
  unfold modePhase
  split
  · exact gemGrabPhase_players env w
  · exact cyberBallPhase_players w

-- Pointwise preservation through a whole tick -------------------------

theorem update_pw (env : TickEnv) (Q : PlayerEntity → Prop)
    (hstep : ∀ i w, (∀ p ∈ w.players, Q p) → ∀ p ∈ (playerStep env i w).players, Q p)
    (hproj : ∀ pr w, (∀ p ∈ w.players, Q p) → ∀ p ∈ (projStep env pr w).1.players, Q p)
    (hreset : ∀ w', ∀ p ∈ (resetPositions env w').players, Q p)
    (w : GameWorld) (hw : ∀ p ∈ w.players, Q p) :
    ∀ p ∈ (update env w).players, Q p := by
  unfold update
  split
  · dsimp only
    split
    · exact hreset _
    · exact hw
  · refine projPhase_pw env Q hproj _ ?_
    refine playersPhase_pw env Q hstep _ ?_
    rw [modePhase_players]
    exact hw

-- Per-function facts for the charge invariant (C10) -------------------

theorem charRate_nonneg : ∀ c ∈ CHARACTERS, 0 ≤ c.superChargeRate := by
  intro c hc
  fin_cases hc <;> norm_num

theorem chargeGain_chargeOK (p : PlayerEntity) (h : ChargeOK p) :
    ChargeOK (chargeGain p) := by
  unfold chargeGain
  cases hf : CHARACTERS.find? (fun c => decide (c.id = p.characterId)) with
  | none => exact h
  | some stats =>
      have hrate : 0 ≤ stats.superChargeRate :=
        charRate_nonneg stats (List.mem_of_find?_eq_some hf)
      refine ⟨le_min ?_ ?_, min_le_left _ _⟩
      · norm_num [SUPER_CHARGE_MAX]
      · exact add_nonneg h.1 hrate

theorem actionExec_chargeOK (env : TickEnv) (stats : CharacterStats) (d : Decision)
    (hb : Bool) (p : PlayerEntity) (ball : Option Ball) (h : ChargeOK p) :
    ChargeOK ((actionExec env stats d hb p ball).player) := by
  have hzero : ChargeOK { p with superCharge := 0 } := by
    constructor
    · exact le_refl 0
    · norm_num [SUPER_CHARGE_MAX]
  unfold actionExec superDispatch fireShot
  dsimp only
  repeat' split
  all_goals first
    | exact h
    | exact hzero
    | exact ⟨le_refl 0, by norm_num [SUPER_CHARGE_MAX]⟩

theorem chargeOK_step (env : TickEnv) :
    ∀ i w, (∀ p ∈ w.players, ChargeOK p) →
      ∀ p ∈ (playerStep env i w).players, ChargeOK p := by
  refine playerStep_pw env ChargeOK ?_ ?_ ?_ ?_ ?_ ?_ ?_
  · intro p h
    unfold respawnTick
    dsimp only
    split <;> exact h
  · intro obstacles p h
    unfold dashFinal dashMoved
    dsimp only
    split <;> exact h
  · intro q t h
    unfold dashDamage
    split <;> exact h
  · intro stats p h
    unfold reloadTick
    dsimp only
    repeat' split
    all_goals exact h
  · intro stats d hb obstacles p h
    exact h
  · intro stats d hb p ball _ h
    exact actionExec_chargeOK env stats d hb p ball h
  · intro mode p gems h
    unfold collectGems
    dsimp only
    split <;> exact h

theorem chargeOK_proj (env : TickEnv) :
    ∀ pr w, (∀ p ∈ w.players, ChargeOK p) →
      ∀ p ∈ (projStep env pr w).1.players, ChargeOK p := by
  refine projStep_pw env ChargeOK ?_ chargeGain_chargeOK ?_ ?_ ?_
  · intro pr p h
    exact h
  · intro p h
    exact h
  · intro p h
    exact h
  · intro p h
    exact h

theorem createPlayer_chargeOK (a b : String) (t : Team) (bo : Bool) (x y : ℚ) :
    ChargeOK (createPlayer a b t bo x y) := by
  refine ⟨le_refl 0, ?_⟩
  show (0 : ℚ) ≤ SUPER_CHARGE_MAX
  norm_num [SUPER_CHARGE_MAX]

theorem resetPositions_chargeOK (env : TickEnv) (w' : GameWorld) :
    ∀ p ∈ (resetPositions env w').players, ChargeOK p := by
  intro p hp
  simp only [resetPositions, List.mem_cons, List.not_mem_nil, or_false] at hp
  rcases hp with rfl | rfl | rfl | rfl | rfl | rfl
  all_goals exact createPlayer_chargeOK _ _ _ _ _ _

/-- C10: for every player and every tick, `superCharge` stays within
`[0, SUPER_CHARGE_MAX]`: players are created with charge 0, every
charge gain from dealing damage (`chargeGain`, the only increase,
line 634) is clamped at `SUPER_CHARGE_MAX = 100`, the only decreases
are the resets to exactly 0 in the action block, and one tick of
`update` preserves the bounds for every player. -/
theorem superCharge_always_bounded (env : TickEnv) (w : GameWorld)
    (hw : ∀ p ∈ w.players, ChargeOK p) :
    (∀ a b t bo x y, (createPlayer a b t bo x y).superCharge = 0) ∧
      ∀ p ∈ (update env w).players, ChargeOK p := by
  constructor
  · intro a b t bo x y
    rfl
  · exact update_pw env ChargeOK (chargeOK_step env) (chargeOK_proj env)
      (resetPositions_chargeOK env) w hw

/-- Witness for C10 at a concrete world. -/
theorem superCharge_always_bounded_witness :
    (∀ p ∈ rapidGemWorld.players, ChargeOK p) ∧
      ∀ p ∈ (update baseEnv rapidGemWorld).players, ChargeOK p :=
  ⟨by with_unfolding_all decide,
   (superCharge_always_bounded baseEnv rapidGemWorld (by with_unfolding_all decide)).2⟩

-- Per-function facts for the ammo invariant (C7) ----------------------

theorem ammo_decrement_ok {a : ℚ} (h : ∃ n : ℕ, a = n) (hpos : 0 < a) :
    ∃ n : ℕ, a - 1 = n := by
  rcases h with ⟨n, rfl⟩
  have hn : 0 < n := by exact_mod_cast hpos
  refine ⟨n - 1, ?_⟩
  have : ((n - 1 : ℕ) : ℚ) = (n : ℚ) - 1 := by
    push_cast [Nat.cast_sub hn]
    ring
  rw [this]

theorem and_decide_pos {b : Bool} {a : ℚ} (h : (b && decide (0 < a)) = true) :
    0 < a :=
  of_decide_eq_true (Bool.and_elim_right h)

theorem actionExec_ammoOK (env : TickEnv) (stats : CharacterStats) (d : Decision)
    (hb : Bool) (p : PlayerEntity) (ball : Option Ball) (h : AmmoOK p) :
    AmmoOK ((actionExec env stats d hb p ball).player) := by
  unfold actionExec
  dsimp only
  split
  · split
    · dsimp only
      split
      · next hc1 =>
          split <;> exact ⟨ammo_decrement_ok h.1 (and_decide_pos hc1), h.2⟩
      · split <;> exact h
    · exact h
  · split
    · unfold superDispatch
      dsimp only
      split <;> first | exact h | exact ⟨⟨10, rfl⟩, ⟨10, rfl⟩⟩
    · split
      · next hc =>
          unfold fireShot
          dsimp only
          exact ⟨ammo_decrement_ok h.1 (and_decide_pos hc), h.2⟩
      · exact h

theorem ammoOK_step (env : TickEnv) :
    ∀ i w, (∀ p ∈ w.players, AmmoOK p) →
      ∀ p ∈ (playerStep env i w).players, AmmoOK p := by
  refine playerStep_pw env AmmoOK ?_ ?_ ?_ ?_ ?_ ?_ ?_
  · intro p h
    unfold respawnTick
    dsimp only
    split
    · exact ⟨h.2, h.2⟩
    · exact h
  · intro obstacles p h
    unfold dashFinal dashMoved
    dsimp only
    split <;> exact h
  · intro q t h
    unfold dashDamage
    split <;> exact h
  · intro stats p h
    unfold reloadTick
    dsimp only
    repeat' split
    · rcases h.1 with ⟨n, hn⟩
      exact ⟨⟨n + 1, by push_cast [hn]; ring⟩, h.2⟩
    · exact h
    · exact h
  · intro stats d hb obstacles p h
    exact h
  · intro stats d hb p ball _ h
    exact actionExec_ammoOK env stats d hb p ball h
  · intro mode p gems h
    unfold collectGems
    dsimp only
    split <;> exact h

theorem ammoOK_proj (env : TickEnv) :
    ∀ pr w, (∀ p ∈ w.players, AmmoOK p) →
      ∀ p ∈ (projStep env pr w).1.players, AmmoOK p := by
  refine projStep_pw env AmmoOK (fun pr p h => h) ?_ (fun p h => h) (fun p h => h)
    (fun p h => h)
  intro p h
  unfold chargeGain
  split <;> exact h

theorem createPlayer_ammoOK (a b : String) (t : Team) (bo : Bool) (x y : ℚ) :
    AmmoOK (createPlayer a b t bo x y) :=
  ⟨⟨3, rfl⟩, ⟨3, rfl⟩⟩

theorem resetPositions_ammoOK (env : TickEnv) (w' : GameWorld) :
    ∀ p ∈ (resetPositions env w').players, AmmoOK p := by
  intro p hp
  simp only [resetPositions, List.mem_cons, List.not_mem_nil, or_false] at hp
  rcases hp with rfl | rfl | rfl | rfl | rfl | rfl
  all_goals exact createPlayer_ammoOK _ _ _ _ _ _

/-- C7: firing with `ammo = 0` creates no projectile and leaves ammo
untouched (the firing branch, line 581, and the ball-throw ammo
consumption, line 523, are both gated on `ammo > 0`), and every
player's ammo is a nonnegative integer after every tick. -/
theorem ammo_never_negative (env : TickEnv) (w : GameWorld)
    (hw : ∀ p ∈ w.players, AmmoOK p) :
    (∀ p ∈ (update env w).players, AmmoOK p ∧ 0 ≤ p.ammo) ∧
      ∀ stats d hb p ball, d.superFiring = false → d.firing = true → p.ammo = 0 →
        (actionExec env stats d hb p ball).player.ammo = 0 ∧
          (actionExec env stats d hb p ball).newProjectiles = [] := by
  constructor
  · intro p hp
    have hA : AmmoOK p :=
      update_pw env AmmoOK (ammoOK_step env) (ammoOK_proj env)
        (resetPositions_ammoOK env) w hw p hp
    refine ⟨hA, ?_⟩
    rcases hA.1 with ⟨n, hn⟩
    rw [hn]
    exact_mod_cast Nat.cast_nonneg n
  · intro stats d hb p ball hsf hf hammo
    unfold actionExec
    dsimp only
    have hgate : decide ((0 : ℚ) < p.ammo) = false := by
      rw [hammo]
      simp
    split
    · split
      · dsimp only
        rw [hsf]
        simp only [Bool.not_false, Bool.true_and, hgate, Bool.false_and, if_false]
        exact ⟨hammo, by trivial⟩
      · exact ⟨hammo, by trivial⟩
    · rw [hsf]
      simp only [Bool.false_and, if_false, hgate, Bool.and_false]
      exact ⟨hammo, by trivial⟩

/-- Witness for C7 at a concrete world. -/
theorem ammo_never_negative_witness :
    (∀ p ∈ (update baseEnv reloadWorld).players, AmmoOK p ∧ 0 ≤ p.ammo) ∧
      ∀ stats d hb p ball, d.superFiring = false → d.firing = true → p.ammo = 0 →
        (actionExec baseEnv stats d hb p ball).player.ammo = 0 ∧
          (actionExec baseEnv stats d hb p ball).newProjectiles = [] :=
  ammo_never_negative baseEnv reloadWorld (by
    intro p hp
    simp only [reloadWorld, emptyWorld, List.mem_singleton] at hp
    subst hp
    exact ⟨⟨3, rfl⟩, ⟨3, rfl⟩⟩)

-- Per-function facts for the RAPID_FIRE max-ammo invariant (C3) -------

theorem actionExec_rapidMax (env : TickEnv) (pid : String) (stats : CharacterStats)
    (d : Decision) (hb : Bool) (p : PlayerEntity) (ball : Option Ball)
    (h : RapidMaxAt pid p) :
    RapidMaxAt pid ((actionExec env stats d hb p ball).player) := by
  unfold actionExec
  dsimp only
  split
  · split
    · dsimp only
      split
      · split <;> exact h
      · split <;> exact h
    · exact h
  · split
    · unfold superDispatch
      dsimp only
      split <;> first | exact h | exact fun _ => rfl
    · split
      · unfold fireShot
        dsimp only
        exact h
      · exact h

theorem rapidMax_step (env : TickEnv) (pid : String) :
    ∀ i w, (∀ p ∈ w.players, RapidMaxAt pid p) →
      ∀ p ∈ (playerStep env i w).players, RapidMaxAt pid p := by
  refine playerStep_pw env (RapidMaxAt pid) ?_ ?_ ?_ ?_ ?_ ?_ ?_
  · intro p h
    unfold respawnTick
    dsimp only
    split <;> exact h
  · intro obstacles p h
    unfold dashFinal dashMoved
    dsimp only
    split <;> exact h
  · intro q t h
    unfold dashDamage
    split <;> exact h
  · intro stats p h
    unfold reloadTick
    dsimp only
    repeat' split
    all_goals exact h
  · intro stats d hb obstacles p h
    exact h
  · intro stats d hb p ball _ h
    exact actionExec_rapidMax env pid stats d hb p ball h
  · intro mode p gems h
    unfold collectGems
    dsimp only
    split <;> exact h

theorem rapidMax_proj (env : TickEnv) (pid : String) :
    ∀ pr w, (∀ p ∈ w.players, RapidMaxAt pid p) →
      ∀ p ∈ (projStep env pr w).1.players, RapidMaxAt pid p := by
  refine projStep_pw env (RapidMaxAt pid) (fun pr p h => h) ?_ (fun p h => h)
    (fun p h => h) (fun p h => h)
  intro p h
  unfold chargeGain
  split <;> exact h

/-- C3 (amended): the RAPID_FIRE dispatch raises `ammo` and `maxAmmo`
to 10, and the elevated `maxAmmo` persists through every tick that is
not a goal-freeze expiry (`goalResetTimer ≠ 1`); in particular it
persists for the remainder of a GEM_GRAB match, where `goalResetTimer`
is never set.  (A goal-triggered reset in CYBER_BALL rebuilds all
players with the base `MAX_AMMO`, see the counterexample.) -/
theorem rapid_fire_max_ammo_persists (env : TickEnv) (w : GameWorld) (pid : String)
    (hgrt : w.goalResetTimer ≠ 1)
    (hw : ∀ p ∈ w.players, RapidMaxAt pid p) :
    (∀ p ∈ (update env w).players, RapidMaxAt pid p) ∧
      ∀ stats d p ball, stats.superType = SuperType.RAPID_FIRE →
        (superDispatch stats d p ball).player.maxAmmo = 10 ∧
          (superDispatch stats d p ball).player.ammo = 10 := by
  constructor
  · unfold update
    split
    · next hpos =>
        dsimp only
        split
        · next hzero =>
            exfalso
            omega
        · exact hw
    · refine projPhase_pw env _ (rapidMax_proj env pid) _ ?_
      refine playersPhase_pw env _ (rapidMax_step env pid) _ ?_
      rw [modePhase_players]
      exact hw
  · intro stats d p ball hsup
    unfold superDispatch
    rw [hsup]
    exact ⟨rfl, rfl⟩

/-- Counterexample to C3 as stated: in CYBER_BALL mode, the tick on
which the goal freeze expires rebuilds every player through
`createPlayer`, dropping the upgraded `maxAmmo = 10` of the human
player back to the base value 3. -/
theorem rapid_fire_reset_counterexample :
    (goalResetWorld.players.map (fun p => (p.id, p.maxAmmo))) = [("player", 10)] ∧
      goalResetWorld.mode = GameMode.CYBER_BALL ∧
      ((update baseEnv goalResetWorld).players.map
          (fun p => (p.id, p.maxAmmo))).head? = some ("player", 3) := by
  with_unfolding_all decide

/-- Witness for C3 at a concrete world. -/
theorem rapid_fire_max_ammo_persists_witness :
    (∀ p ∈ (update baseEnv rapidGemWorld).players, RapidMaxAt "player" p) ∧
      ∀ stats d p ball, stats.superType = SuperType.RAPID_FIRE →
        (superDispatch stats d p ball).player.maxAmmo = 10 ∧
          (superDispatch stats d p ball).player.ammo = 10 :=
  rapid_fire_max_ammo_persists baseEnv rapidGemWorld "player"
    (by with_unfolding_all decide) (by with_unfolding_all decide)

-- Per-function facts for the arena-bounds invariant (C1) --------------

theorem clampQ_bounds (hi v : ℚ) (hhi : 0 ≤ hi) :
    0 ≤ clampQ hi v ∧ clampQ hi v ≤ hi :=
  ⟨le_max_left 0 _, max_le hhi (min_le_left hi v)⟩

theorem movePhase_inBounds (stats : CharacterStats) (d : Decision) (hb : Bool)
    (obstacles : List Obstacle) (p : PlayerEntity) :
    InBounds (movePhase stats d hb obstacles p) := by
  have hx := clampQ_bounds WORLD_WIDTH
    (if obstacles.any (fun o => decide (o.type = ObstacleType.WALL) &&
        checkCircleRect (p.x + d.ux * (stats.speed * (if hb then (17/20 : ℚ) else 1))) p.y
          p.radius o)
      then p.x
      else p.x + d.ux * (stats.speed * (if hb then (17/20 : ℚ) else 1)))
    (by norm_num [WORLD_WIDTH])
  have hy := clampQ_bounds WORLD_HEIGHT
    (if obstacles.any (fun o => decide (o.type = ObstacleType.WALL) &&
        checkCircleRect p.x (p.y + d.uy * (stats.speed * (if hb then (17/20 : ℚ) else 1)))
          p.radius o)
      then p.y
      else p.y + d.uy * (stats.speed * (if hb then (17/20 : ℚ) else 1)))
    (by norm_num [WORLD_HEIGHT])
  exact ⟨hx.1, hx.2, hy.1, hy.2⟩

theorem dashFinal_inBounds (obstacles : List Obstacle) (p : PlayerEntity) :
    InBounds (dashFinal obstacles p) := by
  unfold dashFinal
  dsimp only
  have hx := clampQ_bounds WORLD_WIDTH (dashMoved obstacles p).x (by norm_num [WORLD_WIDTH])
  have hy := clampQ_bounds WORLD_HEIGHT (dashMoved obstacles p).y (by norm_num [WORLD_HEIGHT])
  exact ⟨hx.1, hx.2, hy.1, hy.2⟩

theorem actionExec_characterId (env : TickEnv) (stats : CharacterStats) (d : Decision)
    (hb : Bool) (p : PlayerEntity) (ball : Option Ball) :
    ((actionExec env stats d hb p ball).player).characterId = p.characterId := by
  unfold actionExec superDispatch fireShot
  dsimp only
  repeat' split
  all_goals rfl

theorem actionExec_pos_of_ne_teleport (env : TickEnv) (stats : CharacterStats)
    (d : Decision) (hb : Bool) (p : PlayerEntity) (ball : Option Ball)
    (hnt : stats.superType ≠ SuperType.TELEPORT) :
    ((actionExec env stats d hb p ball).player).x = p.x ∧
      ((actionExec env stats d hb p ball).player).y = p.y := by
  unfold actionExec superDispatch fireShot
  dsimp only
  repeat' split
  all_goals first
    | exact ⟨rfl, rfl⟩
    | (exfalso; exact hnt (by assumption))

theorem collectGems_pos (mode : GameMode) (p : PlayerEntity) (gems : List Gem) :
    ((collectGems mode p gems).1).x = p.x ∧ ((collectGems mode p gems).1).y = p.y ∧
      ((collectGems mode p gems).1).characterId = p.characterId := by
  unfold collectGems
  dsimp only
  split <;> exact ⟨rfl, rfl, rfl⟩

theorem boundsQ_step (env : TickEnv) (henv : RespawnOffOK env) :
    ∀ i w, (∀ p ∈ w.players, NonTeleportChar p → InBounds p) →
      ∀ p ∈ (playerStep env i w).players, NonTeleportChar p → InBounds p := by
  refine playerStep_pw env (fun p => NonTeleportChar p → InBounds p) ?_ ?_ ?_ ?_ ?_ ?_ ?_
  · intro p h
    unfold respawnTick
    dsimp only
    split
    · intro _
      rcases henv p.id with ⟨hlo, hhi⟩
      refine ⟨?_, ?_, ?_, ?_⟩
      · split <;> norm_num [WORLD_WIDTH]
      · split <;> norm_num [WORLD_WIDTH]
      · show (0 : ℚ) ≤ WORLD_HEIGHT / 2 + env.respawnOff p.id
        norm_num [WORLD_HEIGHT]
        linarith
      · show WORLD_HEIGHT / 2 + env.respawnOff p.id ≤ WORLD_HEIGHT
        norm_num [WORLD_HEIGHT]
        linarith
    · exact h
  · intro obstacles p _ _
    exact dashFinal_inBounds obstacles p
  · intro q t h
    unfold dashDamage
    split <;> exact h
  · intro stats p h
    unfold reloadTick
    dsimp only
    repeat' split
    all_goals exact h
  · intro stats d hb obstacles p _ _
    exact movePhase_inBounds stats d hb obstacles p
  · intro stats d hb p ball hstats h hnt
    have hcid : ((actionExec env stats d hb p ball).player).characterId = p.characterId :=
      actionExec_characterId env stats d hb p ball
    unfold NonTeleportChar at hnt
    rw [hcid] at hnt
    have hnt' : stats.superType ≠ SuperType.TELEPORT := by
      rw [← hstats]
      exact hnt
    have hpos := actionExec_pos_of_ne_teleport env stats d hb p ball hnt'
    have hp : InBounds p := h hnt
    rw [InBounds, hpos.1, hpos.2]
    exact hp
  · intro mode p gems h hnt
    have hc := collectGems_pos mode p gems
    unfold NonTeleportChar at hnt
    rw [hc.2.2] at hnt
    rw [InBounds, hc.1, hc.2.1]
    exact h hnt

theorem boundsQ_proj (env : TickEnv) :
    ∀ pr w, (∀ p ∈ w.players, NonTeleportChar p → InBounds p) →
      ∀ p ∈ (projStep env pr w).1.players, NonTeleportChar p → InBounds p := by
  refine projStep_pw env (fun p => NonTeleportChar p → InBounds p)
    (fun pr p h => h) ?_ (fun p h => h) (fun p h => h) (fun p h => h)
  intro p h
  unfold chargeGain
  split <;> exact h

theorem createPlayer_inBounds_of (a b : String) (t : Team) (bo : Bool) (x y : ℚ)
    (hx : 0 ≤ x ∧ x ≤ WORLD_WIDTH) (hy : 0 ≤ y ∧ y ≤ WORLD_HEIGHT) :
    InBounds (createPlayer a b t bo x y) :=
  ⟨hx.1, hx.2, hy.1, hy.2⟩

theorem resetPositions_bounds (env : TickEnv) (w' : GameWorld) :
    ∀ p ∈ (resetPositions env w').players, NonTeleportChar p → InBounds p := by
  intro p hp _
  simp only [resetPositions, List.mem_cons, List.not_mem_nil, or_false] at hp
  rcases hp with rfl | rfl | rfl | rfl | rfl | rfl
  all_goals
    refine createPlayer_inBounds_of _ _ _ _ _ _ ⟨?_, ?_⟩ ⟨?_, ?_⟩ <;>
      norm_num [WORLD_WIDTH, WORLD_HEIGHT]

/-- C1 (amended): if at the start of a tick every player of a
non-TELEPORT character is inside `[0, WORLD_WIDTH] × [0, WORLD_HEIGHT]`
(and the respawn offsets are the source's `±100` samples), then at the
end of the tick every player of a non-TELEPORT character is again
inside the arena: the movement and dash branches clamp, and respawn and
reset place players at interior spawn points.  The restriction to
non-TELEPORT characters is forced: the TELEPORT dispatch (line 574)
adds its 250-unit offset after the movement clamp (line 515) with no
further check, so a teleporting player can end the tick out of bounds
(see the counterexample). -/
theorem players_in_bounds_except_teleport (env : TickEnv) (w : GameWorld)
    (henv : RespawnOffOK env)
    (hw : ∀ p ∈ w.players, NonTeleportChar p → InBounds p) :
    ∀ p ∈ (update env w).players, NonTeleportChar p → InBounds p :=
  update_pw env (fun p => NonTeleportChar p → InBounds p)
    (boundsQ_step env henv) (boundsQ_proj env) (resetPositions_bounds env) w hw

/-- Counterexample to C1 as stated: a fully charged glitch (TELEPORT)
standing alive on the right arena edge releases its super facing right
and ends the tick, still alive, at `x = 2250 > WORLD_WIDTH = 2000`. -/
theorem teleport_out_of_bounds_counterexample :
    ((update teleportEnv teleportWorld).players.map
        (fun p => (p.x, p.y, p.respawnTimer))) = [(2250, 750, 0)] ∧
      ¬ ((2250 : ℚ) ≤ WORLD_WIDTH) := by
  with_unfolding_all decide

/-- Witness for C1 at a concrete world. -/
theorem players_in_bounds_except_teleport_witness :
    RespawnOffOK baseEnv ∧
      ∀ p ∈ (update baseEnv reloadWorld).players, NonTeleportChar p → InBounds p :=
  ⟨fun _ => ⟨by norm_num [baseEnv], by norm_num [baseEnv]⟩,
   players_in_bounds_except_teleport baseEnv reloadWorld
     (fun _ => ⟨by norm_num [baseEnv], by norm_num [baseEnv]⟩)
     (by with_unfolding_all decide)⟩

/-- C5: a super (ability) dispatch — entering the super switch of the
action block, which `actionExec.dispatched` records and which is the
only dispatch site of `update` — happens only when the acting player's
`superCharge` at the moment of the trigger is at least
`SUPER_CHARGE_MAX`, and it sets the charge to exactly 0 in the same
tick (the reset precedes the switch, and no variant writes the charge
again). -/
theorem super_dispatch_guard (env : TickEnv) (stats : CharacterStats) (d : Decision)
    (hb : Bool) (p : PlayerEntity) (ball : Option Ball)
    (h : (actionExec env stats d hb p ball).dispatched = true) :
    SUPER_CHARGE_MAX ≤ p.superCharge ∧
      (actionExec env stats d hb p ball).player.superCharge = 0 := by
  unfold actionExec at h ⊢
  by_cases c1 : (hb && (d.firing || d.superFiring)) = true
  · rw [if_pos c1] at h
    exfalso
    cases ball with
    | none => exact Bool.noConfusion h
    | some b => exact Bool.noConfusion h
  · rw [if_neg c1] at h ⊢
    by_cases c2 : (d.superFiring && decide (SUPER_CHARGE_MAX ≤ p.superCharge)) = true
    · rw [if_pos c2]
      refine ⟨of_decide_eq_true (Bool.and_elim_right c2), ?_⟩
      unfold superDispatch
      dsimp only
      split <;> rfl
    · rw [if_neg c2] at h ⊢
      by_cases c3 : (d.firing && decide (0 < p.ammo)) = true
      · rw [if_pos c3] at h
        exact Bool.noConfusion h
      · rw [if_neg c3] at h
        exact Bool.noConfusion h

/-- Witness for C5 at a concrete dispatch. -/
theorem super_dispatch_guard_witness :
    SUPER_CHARGE_MAX ≤
        ({ createPlayer "player" "neon-ninja" Team.BLUE false 200 750 with
           superCharge := 100 } : PlayerEntity).superCharge ∧
      (actionExec baseEnv (charOf "neon-ninja")
          { noDecision with superFiring := true } false
          { createPlayer "player" "neon-ninja" Team.BLUE false 200 750 with
            superCharge := 100 }
          none).player.superCharge = 0 :=
  super_dispatch_guard baseEnv (charOf "neon-ninja")
    { noDecision with superFiring := true } false
    { createPlayer "player" "neon-ninja" Team.BLUE false 200 750 with
      superCharge := 100 }
    none (by with_unfolding_all decide)

/-- C9: a ball carrier that triggers its super while `superCharge` is
below the cap still releases the ball as a throw at 1.5 × the base
throw speed along the fire direction with the pickup cooldown set,
while the player (in particular `superCharge` and `ammo`) is left
unchanged and no ability effect, projectile or obstacle is produced. -/
theorem ball_throw_without_charge (env : TickEnv) (stats : CharacterStats)
    (d : Decision) (p : PlayerEntity) (b : Ball)
    (hsf : d.superFiring = true) (hch : p.superCharge < SUPER_CHARGE_MAX) :
    actionExec env stats d true p (some b) =
      ⟨p, [], [],
        some { b with carrierId := none, cooldown := BALL_PICKUP_COOLDOWN,
                      vx := d.fire.1 * (BALL_THROW_SPEED * (3/2)),
                      vy := d.fire.2 * (BALL_THROW_SPEED * (3/2)) },
        false⟩ := by
  unfold actionExec
  rw [hsf]
  simp [decide_eq_false (not_le.mpr hch)]

/-- Witness for C9 at a concrete carrier. -/
theorem ball_throw_without_charge_witness :
    actionExec baseEnv (charOf "neon-ninja") { noDecision with superFiring := true }
        true (createPlayer "player" "neon-ninja" Team.BLUE false 500 750)
        (some carriedBall) =
      ⟨createPlayer "player" "neon-ninja" Team.BLUE false 500 750, [], [],
        some { carriedBall with carrierId := none, cooldown := BALL_PICKUP_COOLDOWN,
                                vx := ({ noDecision with superFiring := true } : Decision).fire.1 *
                                  (BALL_THROW_SPEED * (3/2)),
                                vy := ({ noDecision with superFiring := true } : Decision).fire.2 *
                                  (BALL_THROW_SPEED * (3/2)) },
        false⟩ :=
  ball_throw_without_charge baseEnv (charOf "neon-ninja")
    { noDecision with superFiring := true }
    (createPlayer "player" "neon-ninja" Team.BLUE false 500 750) carriedBall rfl
    (by with_unfolding_all decide)

-- Health-projection facts for the hit resolution (C6) -----------------

theorem chargeGain_hp (p : PlayerEntity) : (chargeGain p).hp = p.hp := by
  unfold chargeGain
  split <;> rfl

theorem addKill_hp (p : PlayerEntity) : (addKill p).hp = p.hp := rfl

theorem setRespawn_hp (p : PlayerEntity) : (setRespawn p).hp = p.hp := rfl

theorem clearGems_hp (p : PlayerEntity) : (clearGems p).hp = p.hp := rfl

theorem modifyAt_get?_map {α β} {f : α → α} {g : α → β} (hf : ∀ a, g (f a) = g a) :
    ∀ (l : List α) (j k : ℕ), ((modifyAt f j l).get? k).map g = (l.get? k).map g := by
  intro l j k
  by_cases hjk : j = k
  · subst hjk
    rw [modifyAt_get?_self]
    cases l.get? j <;> simp [hf]
  · rw [modifyAt_get?_ne l j k hjk]

theorem applyHit_hp_ne (env : TickEnv) (pr : Projectile) (j : ℕ) (w : GameWorld)
    (k : ℕ) (hk : k ≠ j) :
    (((applyHit env pr j w).players.get? k).map PlayerEntity.hp) =
      ((w.players.get? k).map PlayerEntity.hp) := by
  unfold applyHit
  cases hget : w.players.get? j with
  | none => rfl
  | some victim =>
      dsimp only
      have hne : j ≠ k := fun h => hk h.symm
      split
      · split
        · rw [modifyAt_get?_map clearGems_hp, modifyFirst_get?_map addKill_hp,
            modifyAt_get?_map setRespawn_hp, modifyFirst_get?_map chargeGain_hp,
            modifyAt_get?_ne _ j k hne]
        · split
          · rw [modifyFirst_get?_map addKill_hp, modifyAt_get?_map setRespawn_hp,
              modifyFirst_get?_map chargeGain_hp, modifyAt_get?_ne _ j k hne]
          · rw [modifyFirst_get?_map addKill_hp, modifyAt_get?_map setRespawn_hp,
              modifyFirst_get?_map chargeGain_hp, modifyAt_get?_ne _ j k hne]
      · rw [modifyFirst_get?_map chargeGain_hp, modifyAt_get?_ne _ j k hne]

theorem applyHit_hp_self (env : TickEnv) (pr : Projectile) (j : ℕ) (w : GameWorld)
    (victim : PlayerEntity) (hv : w.players.get? j = some victim) :
    (((applyHit env pr j w).players.get? j).map PlayerEntity.hp) =
      some (victim.hp - pr.damage) := by
  unfold applyHit
  rw [hv]
  dsimp only
  have hbase :
      ((modifyFirst (fun pl => decide (pl.id = pr.ownerId)) chargeGain
          (modifyAt (damageBy pr) j w.players)).get? j).map PlayerEntity.hp =
        some (victim.hp - pr.damage) := by
    rw [modifyFirst_get?_map chargeGain_hp, modifyAt_get?_self, hv]
    rfl
  split
  · split
    · rw [modifyAt_get?_map clearGems_hp, modifyFirst_get?_map addKill_hp,
        modifyAt_get?_map setRespawn_hp]
      exact hbase
    · split
      · rw [modifyFirst_get?_map addKill_hp, modifyAt_get?_map setRespawn_hp]
        exact hbase
      · rw [modifyFirst_get?_map addKill_hp, modifyAt_get?_map setRespawn_hp]
        exact hbase
  · exact hbase

/-- C6: in any tick, the processing of one projectile damages at most
one player: either no player's health changes, or exactly the first
player (in array order) on the opposing team, not respawning, and
overlapping the advanced projectile loses exactly `damage` health,
every earlier player failing the eligibility test and every other
index keeping its health. -/
theorem projectile_hits_at_most_one (env : TickEnv) (pr : Projectile) (w : GameWorld) :
    ∃ o : Option ℕ,
      (∀ k, o ≠ some k →
        (((projStep env pr w).1.players.get? k).map PlayerEntity.hp) =
          ((w.players.get? k).map PlayerEntity.hp)) ∧
      ∀ j, o = some j → ∃ p, w.players.get? j = some p ∧
        p.team ≠ pr.team ∧ p.respawnTimer = 0 ∧
        distLt p.x p.y (projAdvance env pr).x (projAdvance env pr).y
          (p.radius + (projAdvance env pr).radius) = true ∧
        (((projStep env pr w).1.players.get? j).map PlayerEntity.hp) =
          some (p.hp - pr.damage) ∧
        ∀ k, k < j → ∀ q, w.players.get? k = some q →
          projHits (projAdvance env pr) q = false := by
  unfold projStep
  dsimp only
  split
  · exact ⟨none, fun k _ => rfl, fun j hj => Option.noConfusion hj⟩
  · cases hfind : findFirstIdx (projHits (projAdvance env pr)) w.players with
    | none =>
        dsimp only
        split
        · exact ⟨none, fun k _ => rfl, fun j hj => Option.noConfusion hj⟩
        · exact ⟨none, fun k _ => rfl, fun j hj => Option.noConfusion hj⟩
    | some j =>
        dsimp only
        obtain ⟨⟨p, hget, hhits⟩, hmin⟩ := findFirstIdx_spec hfind
        refine ⟨some j, ?_, ?_⟩
        · intro k hk
          exact applyHit_hp_ne env (projAdvance env pr) j w k
            (fun h => hk (by rw [h]))
        · intro j' hj'
          injection hj' with hj'
          subst hj'
          have hcond := hhits
          unfold projHits at hcond
          simp only [Bool.and_eq_true, decide_eq_true_eq] at hcond
          refine ⟨p, hget, hcond.1.1, hcond.1.2, hcond.2, ?_, ?_⟩
          · have := applyHit_hp_self env (projAdvance env pr) j w p hget
            simpa using this
          · intro k hk q hq
            exact hmin k hk q hq

/-- C2 (amended): each tick a projectile's remaining range is
decremented by exactly the magnitude `√(vx² + vy²)` of its velocity
(the `sq` oracle applied at `vx·vx + vy·vy`); the decrement is strictly
positive whenever the velocity is nonzero, but it is exactly zero for a
zero velocity — as produced by a character with `projectileSpeed = 0`
(knuckles), whose projectile's range never decreases (see the
counterexample).  The projectile is removed within the same tick in
which a wall hit, a player hit, or `range ≤ 0` occurs, with the wall
check performed first and short-circuiting the player check (a wall hit
leaves the world, in particular every player, untouched). -/
theorem projectile_range_and_removal (env : TickEnv) (pr : Projectile) (w : GameWorld)
    (hsq : SqrtOKAt env (pr.vx * pr.vx + pr.vy * pr.vy)) :
    (projAdvance env pr).rangeRemaining =
        pr.rangeRemaining - env.sq (pr.vx * pr.vx + pr.vy * pr.vy) ∧
      (¬(pr.vx = 0 ∧ pr.vy = 0) →
        (projAdvance env pr).rangeRemaining < pr.rangeRemaining) ∧
      ((pr.vx = 0 ∧ pr.vy = 0) →
        (projAdvance env pr).rangeRemaining = pr.rangeRemaining) ∧
      ((projStep env pr w).2 = none ↔
        projWallHit (projAdvance env pr) w.obstacles = true ∨
          (projWallHit (projAdvance env pr) w.obstacles = false ∧
            (findFirstIdx (projHits (projAdvance env pr)) w.players).isSome = true) ∨
          (projAdvance env pr).rangeRemaining ≤ 0) ∧
      (projWallHit (projAdvance env pr) w.obstacles = true →
        (projStep env pr w).1 = w) := by
  obtain ⟨hsq0, hsq1⟩ := hsq
  refine ⟨rfl, ?_, ?_, ?_, ?_⟩
  · intro hnz
    have hm : 0 < pr.vx * pr.vx + pr.vy * pr.vy := by
      rcases not_and_or.mp hnz with hx | hy
      · have : 0 < pr.vx * pr.vx := mul_self_pos.mpr hx
        have := mul_self_nonneg pr.vy
        linarith
      · have : 0 < pr.vy * pr.vy := mul_self_pos.mpr hy
        have := mul_self_nonneg pr.vx
        linarith
    have hne : env.sq (pr.vx * pr.vx + pr.vy * pr.vy) ≠ 0 := by
      intro hz
      rw [hz, mul_zero] at hsq1
      exact absurd hsq1.symm (ne_of_gt hm)
    have hpos : 0 < env.sq (pr.vx * pr.vx + pr.vy * pr.vy) :=
      lt_of_le_of_ne hsq0 (Ne.symm hne)
    show pr.rangeRemaining - env.sq (pr.vx * pr.vx + pr.vy * pr.vy) < pr.rangeRemaining
    linarith
  · rintro ⟨hx, hy⟩
    have hm : pr.vx * pr.vx + pr.vy * pr.vy = 0 := by
      rw [hx, hy]
      ring
    have hz : env.sq (pr.vx * pr.vx + pr.vy * pr.vy) = 0 := by
      have := hsq1
      rw [hm] at this ⊢
      exact mul_self_eq_zero.mp this
    show pr.rangeRemaining - env.sq (pr.vx * pr.vx + pr.vy * pr.vy) = pr.rangeRemaining
    rw [hz]
    ring
  · unfold projStep
    dsimp only
    split
    · next hwall =>
        simp [hwall]
    · next hwall =>
        have hwallf : projWallHit (projAdvance env pr) w.obstacles = false :=
          Bool.not_eq_true _ ▸ (by simpa using hwall)
        cases hfind : findFirstIdx (projHits (projAdvance env pr)) w.players with
        | none =>
            dsimp only
            split
            · next hr => simp [hwallf, hr]
            · next hr => simp [hwallf, hr]
        | some j =>
            dsimp only
            simp [hwallf]
  · intro hwall
    unfold projStep
    dsimp only
    rw [if_pos hwall]

/-- Counterexample to C2 as stated: the zero-velocity projectile of
knuckles (`projectileSpeed: 0`): with a square-root oracle that is
exact at the only magnitude arising (0), the range decrement is zero —
not strictly positive — and the projectile survives the tick with its
range unchanged at 120. -/
theorem zero_speed_projectile_counterexample :
    (charOf "knuckles").projectileSpeed = 0 ∧
      SqrtOKAt baseEnv
        (knucklesPunch.vx * knucklesPunch.vx + knucklesPunch.vy * knucklesPunch.vy) ∧
      ((projStep baseEnv knucklesPunch emptyWorld).2).map Projectile.rangeRemaining =
        some knucklesPunch.rangeRemaining ∧
      knucklesPunch.rangeRemaining = 120 := by
  with_unfolding_all decide

/-- Witness for C2 at a concrete moving projectile. -/
theorem projectile_range_and_removal_witness :
    SqrtOKAt baseEnv (ninjaShot.vx * ninjaShot.vx + ninjaShot.vy * ninjaShot.vy) ∧
      (projAdvance baseEnv ninjaShot).rangeRemaining =
        ninjaShot.rangeRemaining -
          baseEnv.sq (ninjaShot.vx * ninjaShot.vx + ninjaShot.vy * ninjaShot.vy) :=
  ⟨by with_unfolding_all decide,
   (projectile_range_and_removal baseEnv ninjaShot emptyWorld
      (by with_unfolding_all decide)).1⟩

-- Score and countdown are written only by the mode phase (C4) ---------

theorem playerStep_scoreFields (env : TickEnv) (i : ℕ) (w : GameWorld) :
    (playerStep env i w).scoreBlue = w.scoreBlue ∧
      (playerStep env i w).scoreRed = w.scoreRed ∧
      (playerStep env i w).countDownTimer = w.countDownTimer := by
  unfold playerStep
  cases w.players.get? i with
  | none => exact ⟨rfl, rfl, rfl⟩
  | some p =>
      dsimp only
      split
      · exact ⟨rfl, rfl, rfl⟩
      · split
        · exact ⟨rfl, rfl, rfl⟩
        · exact ⟨rfl, rfl, rfl⟩

theorem playersFold_scoreFields (env : TickEnv) :
    ∀ (l : List ℕ) (w : GameWorld),
      (l.foldl (fun w' i => playerStep env i w') w).scoreBlue = w.scoreBlue ∧
        (l.foldl (fun w' i => playerStep env i w') w).scoreRed = w.scoreRed ∧
        (l.foldl (fun w' i => playerStep env i w') w).countDownTimer = w.countDownTimer := by
  intro l
  induction l with
  | nil => intro w; exact ⟨rfl, rfl, rfl⟩
  | cons i t ih =>
      intro w
      obtain ⟨h1, h2, h3⟩ := ih (playerStep env i w)
      obtain ⟨g1, g2, g3⟩ := playerStep_scoreFields env i w
      exact ⟨h1.trans g1, h2.trans g2, h3.trans g3⟩

theorem applyHit_scoreFields (env : TickEnv) (pr : Projectile) (j : ℕ) (w : GameWorld) :
    (applyHit env pr j w).scoreBlue = w.scoreBlue ∧
      (applyHit env pr j w).scoreRed = w.scoreRed ∧
      (applyHit env pr j w).countDownTimer = w.countDownTimer := by
  unfold applyHit
  cases w.players.get? j with
  | none => exact ⟨rfl, rfl, rfl⟩
  | some victim =>
      dsimp only
      repeat' split
      all_goals exact ⟨rfl, rfl, rfl⟩

theorem projStep_scoreFields (env : TickEnv) (pr : Projectile) (w : GameWorld) :
    ((projStep env pr w).1).scoreBlue = w.scoreBlue ∧
      ((projStep env pr w).1).scoreRed = w.scoreRed ∧
      ((projStep env pr w).1).countDownTimer = w.countDownTimer := by
  unfold projStep
  dsimp only
  split
  · exact ⟨rfl, rfl, rfl⟩
  · split
    · exact applyHit_scoreFields env _ _ w
    · split <;> exact ⟨rfl, rfl, rfl⟩

theorem projLoop_scoreFields (env : TickEnv) :
    ∀ (l : List Projectile) (w : GameWorld),
      ((projLoop env l w).1).scoreBlue = w.scoreBlue ∧
        ((projLoop env l w).1).scoreRed = w.scoreRed ∧
        ((projLoop env l w).1).countDownTimer = w.countDownTimer := by
  intro l
  induction l with
  | nil => intro w; exact ⟨rfl, rfl, rfl⟩
  | cons pr t ih =>
      intro w
      obtain ⟨h1, h2, h3⟩ := ih w
      obtain ⟨g1, g2, g3⟩ := projStep_scoreFields env pr (projLoop env t w).1
      exact ⟨g1.trans h1, g2.trans h2, g3.trans h3⟩

theorem projPhase_scoreFields (env : TickEnv) (w : GameWorld) :
    (projPhase env w).scoreBlue = w.scoreBlue ∧
      (projPhase env w).scoreRed = w.scoreRed ∧
      (projPhase env w).countDownTimer = w.countDownTimer :=
  projLoop_scoreFields env w.projectiles w

theorem gemGrabPhase_score (env : TickEnv) (w : GameWorld) :
    (gemGrabPhase env w).scoreBlue = teamGemSum Team.BLUE w.players ∧
      (gemGrabPhase env w).scoreRed = teamGemSum Team.RED w.players ∧
      (teamGemSum Team.BLUE w.players < WIN_GEM_COUNT →
        teamGemSum Team.RED w.players < WIN_GEM_COUNT →
        (gemGrabPhase env w).countDownTimer = none) := by
  unfold gemGrabPhase
  dsimp only
  split
  · next hwin =>
      split
      · refine ⟨rfl, rfl, fun hb hr => ?_⟩
        exfalso
        rcases hwin with h | h
        · omega
        · omega
      · refine ⟨rfl, rfl, fun hb hr => ?_⟩
        exfalso
        rcases hwin with h | h
        · omega
        · omega
  · exact ⟨rfl, rfl, fun _ _ => rfl⟩

/-- C4 (amended): in GEM_GRAB, at the end of every tick each team's
score equals the sum of `gemCount` over that team's players as of the
START of the tick — the scoring pass (lines 319-323) runs before the
same tick's gem collection (lines 599-605) and death drops, so gems
collected during the tick are reflected only one tick later (see the
counterexample) — and whenever both of those sums are below
`WIN_GEM_COUNT` the pending win countdown ends the tick cancelled
(`null`). -/
theorem gemGrab_score_bookkeeping (env : TickEnv) (w : GameWorld)
    (hmode : w.mode = GameMode.GEM_GRAB) (hgrt : w.goalResetTimer = 0) :
    (update env w).scoreBlue = teamGemSum Team.BLUE w.players ∧
      (update env w).scoreRed = teamGemSum Team.RED w.players ∧
      (teamGemSum Team.BLUE w.players < WIN_GEM_COUNT →
        teamGemSum Team.RED w.players < WIN_GEM_COUNT →
        (update env w).countDownTimer = none) := by
  have hupd : update env w = projPhase env (playersPhase env (modePhase env w)) := by
    unfold update
    rw [if_neg (by rw [hgrt]; exact lt_irrefl 0)]
  have hmp : modePhase env w = gemGrabPhase env w := by
    unfold modePhase
    rw [hmode]
  obtain ⟨p1, p2, p3⟩ := projPhase_scoreFields env (playersPhase env (modePhase env w))
  obtain ⟨f1, f2, f3⟩ :=
    playersFold_scoreFields env (List.range (modePhase env w).players.length)
      (modePhase env w)
  obtain ⟨g1, g2, g3⟩ := gemGrabPhase_score env w
  rw [hupd]
  unfold playersPhase at *
  refine ⟨?_, ?_, ?_⟩
  · rw [p1, f1, hmp, g1]
  · rw [p2, f2, hmp, g2]
  · intro hb hr
    rw [p3, f3, hmp]
    exact g3 hb hr

/-- Counterexample to C4 as stated: a player standing on a gem collects
it during the tick, but the end-of-tick score is still 0 while the
team's `gemCount` sum is already 1 — same-tick pickups are not included
in the score until the next tick. -/
theorem gem_score_lags_counterexample :
    gemPickupWorld.mode = GameMode.GEM_GRAB ∧
      (update baseEnv gemPickupWorld).scoreBlue = 0 ∧
      teamGemSum Team.BLUE (update baseEnv gemPickupWorld).players = 1 ∧
      (update baseEnv gemPickupWorld).gems = [] := by
  with_unfolding_all decide

/-- Witness for C4 at a concrete world. -/
theorem gemGrab_score_bookkeeping_witness :
    (update baseEnv gemPickupWorld).scoreBlue =
        teamGemSum Team.BLUE gemPickupWorld.players ∧
      (update baseEnv gemPickupWorld).scoreRed =
        teamGemSum Team.RED gemPickupWorld.players ∧
      (teamGemSum Team.BLUE gemPickupWorld.players < WIN_GEM_COUNT →
        teamGemSum Team.RED gemPickupWorld.players < WIN_GEM_COUNT →
        (update baseEnv gemPickupWorld).countDownTimer = none) :=
  gemGrab_score_bookkeeping baseEnv gemPickupWorld rfl rfl

/-- C8: a neon-ninja (`reloadTime = 40`, full ammo `MAX_AMMO = 3`) that
fires exactly once at tick 0 and never again: entry `k` of `ammoTrace`
is the pair `(ammo, reloadTimer)` at the end of tick `k`, and the trace
over ticks 0-40 is exactly `(2, 0)` at tick 0 (the shot consumes one
ammo and resets the reload progress), `(2, k)` at every tick
`1 ≤ k ≤ 39`, and `(3, 0)` at tick 40 — ammo returns to 3 at tick 40
and not before. -/
theorem reload_restores_at_tick_40 :
    (charOf "neon-ninja").reloadTime = 40 ∧
      reloadWorld.players.map
          (fun p => (p.characterId, p.ammo, p.maxAmmo, p.reloadTimer)) =
        [("neon-ninja", 3, 3, 0)] ∧
      ammoTrace =
        ((2 : ℚ), (0 : ℚ)) ::
          ((List.range 39).map (fun k => ((2 : ℚ), (k : ℚ) + 1))) ++
            [((3 : ℚ), (0 : ℚ))] := by
  with_unfolding_all decide
